import Mathlib

/-!
# psabpf: clone-session commands, pipeline loading and the register accessor

A shallow embedding of `CLI/clone_session.c`, of the loading command of
`CLI/pipeline.c` and of `lib/psabpf_register.c`.

* C `int` results are `Int`; the unsigned arguments (`uint32_t`, `uint16_t`,
  `uint8_t`) are `Nat`.
* The kernel side (maps, open descriptors, loaded pipelines) is an abstract
  store `σ`.  The functions these files call and whose bodies are elsewhere
  are fields of `PreLib` (the primitives declared in `include/psabpf_pre.h`),
  `CliLib` and `ArgpLib` (the command-line helpers), `PipelineLib` (the
  pipeline primitives) and `RegLib` (the helpers of the register accessor).
  Every call of a library function is appended to the `log` of the `World`,
  so that "is called" and "is never called" are statements about that log.
* A pointer that may be `NULL` is an `Option`; a local that C leaves
  uninitialised is an `Option` that is `none` until the matching `_init`
  call, or, for a scalar, a parameter standing for whatever it holds.
* Diagnostics written with `fprintf` are not part of the model.
-/

namespace Psabpf

/-! ## Error codes (`errno.h`, Linux numbering) -/

def NO_ERROR : Int := 0
def ENOENT : Int := 2
def ENOMEM : Int := 12
def EEXIST : Int := 17
def EINVAL : Int := 22
def ENOTSUP : Int := 95
def EOPNOTSUPP : Int := 95

/-! ## Data model (`include/psabpf_pre.h`) -/

/-- Modelled from the spec: the pipeline context of `psabpf.h` (not among the
sources); a context is bound to a pipeline by its identifier. -/
structure psabpf_context_t where
  pipeline_id : Nat
deriving DecidableEq, Repr

/-- Modelled from the spec: the map descriptor of `psabpf.h` (not among the
sources): fd-like handle, key size, value size, capacity, and the type id
that `psabpf_register.c` reads as `reg.btf_type_id`. -/
structure psabpf_bpf_map_descriptor_t where
  fd : Int
  key_size : Nat
  value_size : Nat
  btf_type_id : Nat
  max_entries : Nat
deriving DecidableEq, Repr

/-- The `typedef uint32_t psabpf_clone_session_id_t`. -/
abbrev psabpf_clone_session_id_t := Nat

/-- The `struct psabpf_clone_session_entry`; `truncate` is the `uint8_t`
flag. -/
structure psabpf_clone_session_entry_t where
  egress_port : Nat
  instance_ : Nat
  class_of_service : Nat
  truncate : Nat
  packet_length_bytes : Nat
deriving DecidableEq, Repr

/-- The `struct psabpf_clone_session_ctx`. -/
structure psabpf_clone_session_ctx_t where
  id : psabpf_clone_session_id_t
  session_map : psabpf_bpf_map_descriptor_t
  current_entry : psabpf_clone_session_entry_t
  current_egress_port : Nat
  current_instance : Nat
deriving DecidableEq, Repr

/-! ## Library calls and the world -/

/-- One entry of the call log: which library function was called, with the
arguments it was given.  `psabpf_clone_session_entry_free` records the local
entry as it is at the call: `none` when `psabpf_clone_session_entry_init` has
not run on it. -/
inductive Call where
  | psabpf_context_init
  | psabpf_context_free (ctx : psabpf_context_t)
  | psabpf_clone_session_context_init
  | psabpf_clone_session_context_free (session : psabpf_clone_session_ctx_t)
  | psabpf_clone_session_id (id : psabpf_clone_session_id_t)
  | psabpf_clone_session_exists (ctx : psabpf_context_t)
      (session : psabpf_clone_session_ctx_t)
  | psabpf_clone_session_create (ctx : psabpf_context_t)
      (session : psabpf_clone_session_ctx_t)
  | psabpf_clone_session_delete (ctx : psabpf_context_t)
      (session : psabpf_clone_session_ctx_t)
  | psabpf_clone_session_entry_init
  | psabpf_clone_session_entry_free (entry : Option psabpf_clone_session_entry_t)
  | psabpf_clone_session_entry_port (egress_port : Nat)
  | psabpf_clone_session_entry_instance (instance_ : Nat)
  | psabpf_clone_session_entry_cos (class_of_service : Nat)
  | psabpf_clone_session_entry_truncate_enable (packet_length_bytes : Nat)
  | psabpf_clone_session_entry_update (ctx : psabpf_context_t)
      (session : psabpf_clone_session_ctx_t) (entry : psabpf_clone_session_entry_t)
  | psabpf_clone_session_entry_delete (ctx : psabpf_context_t)
      (session : psabpf_clone_session_ctx_t) (entry : psabpf_clone_session_entry_t)
  | load_btf (psabpf_ctx : psabpf_context_t)
  | open_bpf_map (psabpf_ctx : psabpf_context_t) (name : String)
  | psabtf_get_member_type_id_by_name (btf : Nat) (type_id : Nat) (member : String)
  | parse_struct_type (type_id : Nat) (data_size : Nat)
  | close_object_fd (fd : Int)
  | malloc (size : Nat)
  | construct_struct_from_fields (buffer_len : Nat)
  | bpf_map_lookup_elem (fd : Int) (key : List Nat)
  | psabpf_context_set_pipeline (id : Nat)
  | psabpf_pipeline_exists (ctx : psabpf_context_t)
  | psabpf_pipeline_load (ctx : psabpf_context_t) (file : Option String)
deriving DecidableEq, Repr

/-- The state a command runs in: the kernel-side store and the log of library
calls made so far. -/
structure World (σ : Type) where
  store : σ
  log : List Call

/-- Append one call to the log. -/
def World.call {σ : Type} (w : World σ) (c : Call) : World σ :=
  { w with log := w.log ++ [c] }

/-- The calls logged between two worlds of one run. -/
def World.calls_since {σ : Type} (before after : World σ) : List Call :=
  after.log.drop before.log.length

/-- Run a store primitive and log the call. -/
def World.invoke {σ α : Type} (w : World σ) (c : Call) (f : σ → α × σ) : α × World σ :=
  ((f w.store).1, { store := (f w.store).2, log := w.log ++ [c] })

/-- The PRE primitives of `psabpf_pre.h` whose bodies are not among the
sources.  `psabpf_clone_session_exists` is a read of the store; the four
`int`-returning primitives return their result and the store they leave.
`psabpf_clone_session_context_init` is the content of a session context right
after initialisation. -/
structure PreLib (σ : Type) where
  psabpf_clone_session_context_init : psabpf_clone_session_ctx_t
  psabpf_clone_session_exists :
    σ → psabpf_context_t → psabpf_clone_session_ctx_t → Bool
  psabpf_clone_session_create :
    σ → psabpf_context_t → psabpf_clone_session_ctx_t → Int × σ
  psabpf_clone_session_delete :
    σ → psabpf_context_t → psabpf_clone_session_ctx_t → Int × σ
  psabpf_clone_session_entry_update :
    σ → psabpf_context_t → psabpf_clone_session_ctx_t →
      psabpf_clone_session_entry_t → Int × σ
  psabpf_clone_session_entry_delete :
    σ → psabpf_context_t → psabpf_clone_session_ctx_t →
      psabpf_clone_session_entry_t → Int × σ

/-- Modelled from the spec: `psabpf_clone_session_id` (body in `psabpf_pre.c`,
not among the sources) binds the session context to an identifier, with no
kernel effect. -/
def psabpf_clone_session_id (session : psabpf_clone_session_ctx_t)
    (id : psabpf_clone_session_id_t) : psabpf_clone_session_ctx_t :=
  { session with id := id }

/-- Modelled from the spec: `psabpf_clone_session_entry_init` (body in
`psabpf_pre.c`, not among the sources) gives the default member: class of
service 0, truncation disabled, length cleared. -/
def psabpf_clone_session_entry_init : psabpf_clone_session_entry_t :=
  { egress_port := 0, instance_ := 0, class_of_service := 0, truncate := 0,
    packet_length_bytes := 0 }

/-- Modelled from the spec: `psabpf_clone_session_entry_port` sets the
member's egress port. -/
def psabpf_clone_session_entry_port (entry : psabpf_clone_session_entry_t)
    (egress_port : Nat) : psabpf_clone_session_entry_t :=
  { entry with egress_port := egress_port }

/-- Modelled from the spec: `psabpf_clone_session_entry_instance` sets the
member's instance. -/
def psabpf_clone_session_entry_instance (entry : psabpf_clone_session_entry_t)
    (instance_ : Nat) : psabpf_clone_session_entry_t :=
  { entry with instance_ := instance_ }

/-- Modelled from the spec: `psabpf_clone_session_entry_cos` sets the member's
class of service. -/
def psabpf_clone_session_entry_cos (entry : psabpf_clone_session_entry_t)
    (class_of_service : Nat) : psabpf_clone_session_entry_t :=
  { entry with class_of_service := class_of_service }

/-- Modelled from the spec: `psabpf_clone_session_entry_truncate_enable` sets
the per-member truncation flag and the byte length. -/
def psabpf_clone_session_entry_truncate_enable (entry : psabpf_clone_session_entry_t)
    (packet_length_bytes : Nat) : psabpf_clone_session_entry_t :=
  { entry with truncate := 1, packet_length_bytes := packet_length_bytes }

/-- The session context a command builds for an id: `context_init` followed
by `psabpf_clone_session_id`. -/
def session_for {σ : Type} (L : PreLib σ) (id : psabpf_clone_session_id_t) :
    psabpf_clone_session_ctx_t :=
  psabpf_clone_session_id L.psabpf_clone_session_context_init id

/-! ## `CLI/clone_session.c` -/

/-- The `clone_session_create` of `clone_session.c`, lines 27-49. -/
def clone_session_create {σ : Type} (L : PreLib σ) (ctx : psabpf_context_t)
    (clone_session_id : psabpf_clone_session_id_t) (w : World σ) : Int × World σ :=
  let session := L.psabpf_clone_session_context_init
  let w := w.call .psabpf_clone_session_context_init
  let session := psabpf_clone_session_id session clone_session_id
  let w := w.call (.psabpf_clone_session_id clone_session_id)
  let found := L.psabpf_clone_session_exists w.store ctx session
  let w := w.call (.psabpf_clone_session_exists ctx session)
  if found then
    let error := EEXIST
    -- err:
    let w := w.call (.psabpf_clone_session_context_free session)
    (error, w)
  else
    let r := w.invoke (.psabpf_clone_session_create ctx session)
      (fun s => L.psabpf_clone_session_create s ctx session)
    let error := r.1
    -- `if (error) goto err;` and the fall-through both reach `err:`
    let w := r.2.call (.psabpf_clone_session_context_free session)
    (error, w)

/-- The `clone_session_delete` of `clone_session.c`, lines 51-73. -/
def clone_session_delete {σ : Type} (L : PreLib σ) (ctx : psabpf_context_t)
    (clone_session_id : psabpf_clone_session_id_t) (w : World σ) : Int × World σ :=
  let session := L.psabpf_clone_session_context_init
  let w := w.call .psabpf_clone_session_context_init
  let session := psabpf_clone_session_id session clone_session_id
  let w := w.call (.psabpf_clone_session_id clone_session_id)
  let found := L.psabpf_clone_session_exists w.store ctx session
  let w := w.call (.psabpf_clone_session_exists ctx session)
  if !found then
    let error := ENOENT
    -- err:
    let w := w.call (.psabpf_clone_session_context_free session)
    (error, w)
  else
    let r := w.invoke (.psabpf_clone_session_delete ctx session)
      (fun s => L.psabpf_clone_session_delete s ctx session)
    let error := r.1
    let w := r.2.call (.psabpf_clone_session_context_free session)
    (error, w)

/-- The `clone_session_add_member` of `clone_session.c`, lines 75-115.  The
local `entry` is `none` until `psabpf_clone_session_entry_init` runs. -/
def clone_session_add_member {σ : Type} (L : PreLib σ) (ctx : psabpf_context_t)
    (clone_session_id : psabpf_clone_session_id_t) (egress_port : Nat)
    (instance_ : Nat) (class_of_service : Nat) (truncate : Bool)
    (packet_length_bytes : Nat) (w : World σ) : Int × World σ :=
  let session := L.psabpf_clone_session_context_init
  let w := w.call .psabpf_clone_session_context_init
  let session := psabpf_clone_session_id session clone_session_id
  let w := w.call (.psabpf_clone_session_id clone_session_id)
  let found := L.psabpf_clone_session_exists w.store ctx session
  let w := w.call (.psabpf_clone_session_exists ctx session)
  if !found then
    let error := ENOENT
    -- err: the entry has not been initialised on this path
    let w := w.call (.psabpf_clone_session_context_free session)
    let w := w.call (.psabpf_clone_session_entry_free none)
    (error, w)
  else
    let entry := psabpf_clone_session_entry_init
    let w := w.call .psabpf_clone_session_entry_init
    let entry := psabpf_clone_session_entry_port entry egress_port
    let w := w.call (.psabpf_clone_session_entry_port egress_port)
    let entry := psabpf_clone_session_entry_instance entry instance_
    let w := w.call (.psabpf_clone_session_entry_instance instance_)
    let entry := psabpf_clone_session_entry_cos entry class_of_service
    let w := w.call (.psabpf_clone_session_entry_cos class_of_service)
    let entry :=
      if truncate then psabpf_clone_session_entry_truncate_enable entry packet_length_bytes
      else entry
    let w :=
      if truncate then w.call (.psabpf_clone_session_entry_truncate_enable packet_length_bytes)
      else w
    let r := w.invoke (.psabpf_clone_session_entry_update ctx session entry)
      (fun s => L.psabpf_clone_session_entry_update s ctx session entry)
    let error := r.1
    -- err:
    let w := r.2.call (.psabpf_clone_session_context_free session)
    let w := w.call (.psabpf_clone_session_entry_free (some entry))
    (error, w)

/-- The `clone_session_del_member` of `clone_session.c`, lines 117-149. -/
def clone_session_del_member {σ : Type} (L : PreLib σ) (ctx : psabpf_context_t)
    (clone_session_id : psabpf_clone_session_id_t) (egress_port : Nat)
    (instance_ : Nat) (w : World σ) : Int × World σ :=
  let session := L.psabpf_clone_session_context_init
  let w := w.call .psabpf_clone_session_context_init
  let session := psabpf_clone_session_id session clone_session_id
  let w := w.call (.psabpf_clone_session_id clone_session_id)
  let found := L.psabpf_clone_session_exists w.store ctx session
  let w := w.call (.psabpf_clone_session_exists ctx session)
  if !found then
    let error := ENOENT
    -- err: the entry has not been initialised on this path
    let w := w.call (.psabpf_clone_session_context_free session)
    let w := w.call (.psabpf_clone_session_entry_free none)
    (error, w)
  else
    let entry := psabpf_clone_session_entry_init
    let w := w.call .psabpf_clone_session_entry_init
    let entry := psabpf_clone_session_entry_port entry egress_port
    let w := w.call (.psabpf_clone_session_entry_port egress_port)
    let entry := psabpf_clone_session_entry_instance entry instance_
    let w := w.call (.psabpf_clone_session_entry_instance instance_)
    let r := w.invoke (.psabpf_clone_session_entry_delete ctx session entry)
      (fun s => L.psabpf_clone_session_entry_delete s ctx session entry)
    let error := r.1
    -- err:
    let w := r.2.call (.psabpf_clone_session_context_free session)
    let w := w.call (.psabpf_clone_session_entry_free (some entry))
    (error, w)

/-! ## Command-line entry points of `CLI/clone_session.c`

The argument vector is the list of the arguments not yet consumed: `argc` is
its length and `*argv` its head, `NULL` when the list is empty. -/

/-- One row of a `parser_keyword_value_pair_t` table as `clone_session.c`
writes it: keyword, size of the destination, whether the keyword is required,
and the description.  The destination pointer of a row is its position in the
table. -/
structure parser_keyword_value_pair_t where
  keyword : String
  dst_size : Nat
  required : Bool
  comment : String
deriving DecidableEq, Repr

/-- The helpers of `CLI/common.h` and `CLI/common.c`, which are not among the
sources.
* `psabpf_context_init` is the content of a pipeline context right after
  initialisation.
* `parse_pipeline_id` reads the store, and returns its result, the remaining
  arguments and the context it has bound.
* `parse_keyword_value_pairs` returns its result, the remaining arguments
  and, for each row of the table, the value it stored through that row's
  destination, `none` when it stored nothing there.
* `is_keyword word str` is the keyword test on a possibly `NULL` word.
* `NEXT_ARG` is the macro that steps to the next argument; `none` stands for
  a run that does not continue past the macro. -/
structure CliLib (σ : Type) where
  psabpf_context_init : psabpf_context_t
  parse_pipeline_id :
    σ → List String → psabpf_context_t → Int × List String × psabpf_context_t
  parse_keyword_value_pairs :
    List String → List parser_keyword_value_pair_t → Int × List String × List (Option Nat)
  is_keyword : Option String → String → Bool
  NEXT_ARG : List String → Option (List String)

/-- The content of an unsigned local of `dst_size` bytes after `v` is stored
in it. -/
def store_sized (dst_size v : Nat) : Nat :=
  v % 2 ^ (8 * dst_size)

/-- The content of the local behind row `row` after a parser pass: the value
the parser stored there, or else what the local held before. -/
def kv_dest (writes : List (Option Nat)) (row dst_size old : Nat) : Nat :=
  match writes.getD row none with
  | some v => store_sized dst_size v
  | none => old

/-- The table `kv` of `do_clone_session_add_member`, lines 226-232. -/
def add_member_kv : List parser_keyword_value_pair_t :=
  [ { keyword := "id", dst_size := 4, required := true, comment := "session id" },
    { keyword := "egress-port", dst_size := 4, required := true, comment := "egress port" },
    { keyword := "instance", dst_size := 2, required := true,
      comment := "egress port instance" },
    { keyword := "cos", dst_size := 1, required := false, comment := "class of service" } ]

/-- The table `truncate_kv` of `do_clone_session_add_member`, lines 233-236. -/
def add_member_truncate_kv : List parser_keyword_value_pair_t :=
  [ { keyword := "plen_bytes", dst_size := 2, required := true,
      comment := "packet len truncate size" } ]

/-- The block `if (is_keyword(*argv, "truncate")) { ... }` of
`do_clone_session_add_member`, lines 241-246: the value of `truncate`, the
remaining arguments, the content of `plen_bytes` and the result of the
parser pass made inside the block (`NO_ERROR` when the block is skipped);
`none` when the run ends inside `NEXT_ARG`. -/
def add_member_truncate_block {σ : Type} (C : CliLib σ) (argv : List String)
    (plen_bytes : Nat) : Option (Bool × List String × Nat × Int) :=
  if C.is_keyword argv.head? "truncate" then
    match C.NEXT_ARG argv with
    | none => none
    | some argv =>
      let truncate := true
      let t := C.parse_keyword_value_pairs argv add_member_truncate_kv
      some (truncate, t.2.1, kv_dest t.2.2 0 2 plen_bytes, t.1)
  else some (false, argv, plen_bytes, NO_ERROR)

/-- The `do_clone_session_add_member` of `clone_session.c`, lines 213-259.
`session_id`, `egress_port`, `instance_` and `plen_bytes` are the contents the
four locals declared without an initialiser happen to have; `cos` starts at 0
and `truncate` at `false`.  The result is `none` when the run ends inside
`NEXT_ARG`. -/
def do_clone_session_add_member {σ : Type} (C : CliLib σ) (L : PreLib σ)
    (argv : List String) (session_id egress_port instance_ plen_bytes : Nat)
    (w : World σ) : Option (Int × World σ) :=
  let ctx := C.psabpf_context_init
  let w := w.call .psabpf_context_init
  let ret := EINVAL
  let p := C.parse_pipeline_id w.store argv ctx
  let argv := p.2.1
  let ctx := p.2.2
  if p.1 ≠ NO_ERROR then
    some (ret, w.call (.psabpf_context_free ctx))
  else
    let session_id := store_sized 4 session_id
    let egress_port := store_sized 4 egress_port
    let instance_ := store_sized 2 instance_
    let plen_bytes := store_sized 2 plen_bytes
    let cos := 0
    let k := C.parse_keyword_value_pairs argv add_member_kv
    let argv := k.2.1
    let session_id := kv_dest k.2.2 0 4 session_id
    let egress_port := kv_dest k.2.2 1 4 egress_port
    let instance_ := kv_dest k.2.2 2 2 instance_
    let cos := kv_dest k.2.2 3 1 cos
    if k.1 ≠ NO_ERROR then
      some (ret, w.call (.psabpf_context_free ctx))
    else
      match add_member_truncate_block C argv plen_bytes with
      | none => none
      | some (truncate, argv, plen_bytes, status) =>
        if status ≠ NO_ERROR then
          some (ret, w.call (.psabpf_context_free ctx))
        else if argv.length > 0 then
          some (ret, w.call (.psabpf_context_free ctx))
        else
          let r := clone_session_add_member L ctx session_id egress_port instance_ cos
            truncate plen_bytes w
          some (r.1, r.2.call (.psabpf_context_free ctx))

/-! ## The other entry points of `CLI/clone_session.c` -/

/-- The table `kv` of `do_clone_session_create` (lines 161-164) and of
`do_clone_session_delete` (lines 192-195). -/
def session_kv : List parser_keyword_value_pair_t :=
  [ { keyword := "id", dst_size := 4, required := true, comment := "session id" } ]

/-- The table `kv` of `do_clone_session_del_member`, lines 272-277. -/
def del_member_kv : List parser_keyword_value_pair_t :=
  [ { keyword := "id", dst_size := 4, required := true, comment := "session id" },
    { keyword := "egress-port", dst_size := 4, required := true, comment := "egress port" },
    { keyword := "instance", dst_size := 2, required := true,
      comment := "egress port instance" } ]

/-- The table `kv` of `do_clone_session_get`, lines 395-398. -/
def get_kv : List parser_keyword_value_pair_t :=
  [ { keyword := "id", dst_size := 4, required := true, comment := "clone session id" } ]

/-- The `do_clone_session_create` of `clone_session.c`, lines 151-180;
`session_id` is the content the uninitialised local happens to have. -/
def do_clone_session_create {σ : Type} (C : CliLib σ) (L : PreLib σ)
    (argv : List String) (session_id : Nat) (w : World σ) : Int × World σ :=
  let ctx := C.psabpf_context_init
  let w := w.call .psabpf_context_init
  let ret := EINVAL
  let p := C.parse_pipeline_id w.store argv ctx
  let argv := p.2.1
  let ctx := p.2.2
  if p.1 ≠ NO_ERROR then
    (ret, w.call (.psabpf_context_free ctx))
  else
    let session_id := store_sized 4 session_id
    let k := C.parse_keyword_value_pairs argv session_kv
    let argv := k.2.1
    let session_id := kv_dest k.2.2 0 4 session_id
    if k.1 ≠ NO_ERROR then
      (ret, w.call (.psabpf_context_free ctx))
    else if argv.length > 0 then
      (ret, w.call (.psabpf_context_free ctx))
    else
      let r := clone_session_create L ctx session_id w
      (r.1, r.2.call (.psabpf_context_free ctx))

/-- The `do_clone_session_delete` of `clone_session.c`, lines 182-211. -/
def do_clone_session_delete {σ : Type} (C : CliLib σ) (L : PreLib σ)
    (argv : List String) (session_id : Nat) (w : World σ) : Int × World σ :=
  let ctx := C.psabpf_context_init
  let w := w.call .psabpf_context_init
  let ret := EINVAL
  let p := C.parse_pipeline_id w.store argv ctx
  let argv := p.2.1
  let ctx := p.2.2
  if p.1 ≠ NO_ERROR then
    (ret, w.call (.psabpf_context_free ctx))
  else
    let session_id := store_sized 4 session_id
    let k := C.parse_keyword_value_pairs argv session_kv
    let argv := k.2.1
    let session_id := kv_dest k.2.2 0 4 session_id
    if k.1 ≠ NO_ERROR then
      (ret, w.call (.psabpf_context_free ctx))
    else if argv.length > 0 then
      (ret, w.call (.psabpf_context_free ctx))
    else
      let r := clone_session_delete L ctx session_id w
      (r.1, r.2.call (.psabpf_context_free ctx))

/-- The `do_clone_session_del_member` of `clone_session.c`, lines 261-293. -/
def do_clone_session_del_member {σ : Type} (C : CliLib σ) (L : PreLib σ)
    (argv : List String) (session_id egress_port instance_ : Nat) (w : World σ) :
    Int × World σ :=
  let ctx := C.psabpf_context_init
  let w := w.call .psabpf_context_init
  let ret := EINVAL
  let p := C.parse_pipeline_id w.store argv ctx
  let argv := p.2.1
  let ctx := p.2.2
  if p.1 ≠ NO_ERROR then
    (ret, w.call (.psabpf_context_free ctx))
  else
    let session_id := store_sized 4 session_id
    let egress_port := store_sized 4 egress_port
    let instance_ := store_sized 2 instance_
    let k := C.parse_keyword_value_pairs argv del_member_kv
    let argv := k.2.1
    let session_id := kv_dest k.2.2 0 4 session_id
    let egress_port := kv_dest k.2.2 1 4 egress_port
    let instance_ := kv_dest k.2.2 2 2 instance_
    if k.1 ≠ NO_ERROR then
      (ret, w.call (.psabpf_context_free ctx))
    else if argv.length > 0 then
      (ret, w.call (.psabpf_context_free ctx))
    else
      let r := clone_session_del_member L ctx session_id egress_port instance_ w
      (r.1, r.2.call (.psabpf_context_free ctx))

/-- The label `clean_up:` of `do_clone_session_get`, lines 418-422. -/
def do_clone_session_get_clean_up {σ : Type} (ret : Int)
    (session : psabpf_clone_session_ctx_t) (ctx : psabpf_context_t) (w : World σ) :
    Int × World σ :=
  let w := w.call (.psabpf_clone_session_context_free session)
  let w := w.call (.psabpf_context_free ctx)
  (ret, w)

/-- Lines 411-416 of `do_clone_session_get`: the check for unused arguments,
which leaves `ret` as it is, and the call of `print_clone_session`, whose
result is discarded. -/
def do_clone_session_get_finish {σ : Type}
    (print_clone_session : psabpf_context_t → Option psabpf_clone_session_ctx_t →
      World σ → Int × Option psabpf_clone_session_ctx_t × World σ)
    (ret : Int) (session_id_specified : Bool) (argv : List String)
    (session : psabpf_clone_session_ctx_t) (ctx : psabpf_context_t) (w : World σ) :
    Int × World σ :=
  if argv.length > 0 then
    do_clone_session_get_clean_up ret session ctx w
  else
    let r := print_clone_session ctx (if session_id_specified then some session else none) w
    let session := if session_id_specified then r.2.1.getD session else session
    do_clone_session_get_clean_up ret session ctx r.2.2

/-- The `do_clone_session_get` of `clone_session.c`, lines 378-423.
`print_clone_session` (lines 333-376, JSON rendering of the sessions) is a
parameter: it is given the context and the session pointer (`none` for
`NULL`) and returns its result, the session as it leaves it, and the world.
`session_id` is the content the uninitialised local happens to have. -/
def do_clone_session_get {σ : Type} (C : CliLib σ) (L : PreLib σ)
    (print_clone_session : psabpf_context_t → Option psabpf_clone_session_ctx_t →
      World σ → Int × Option psabpf_clone_session_ctx_t × World σ)
    (argv : List String) (session_id : Nat) (w : World σ) : Int × World σ :=
  let session_id_specified := false
  let ctx := C.psabpf_context_init
  let w := w.call .psabpf_context_init
  let session := L.psabpf_clone_session_context_init
  let w := w.call .psabpf_clone_session_context_init
  let p := C.parse_pipeline_id w.store argv ctx
  let ret := p.1
  let argv := p.2.1
  let ctx := p.2.2
  if ret ≠ NO_ERROR then
    do_clone_session_get_clean_up ret session ctx w
  else if argv.length > 0 then
    let session_id_specified := true
    let session_id := store_sized 4 session_id
    let k := C.parse_keyword_value_pairs argv get_kv
    let ret := k.1
    let argv := k.2.1
    let session_id := kv_dest k.2.2 0 4 session_id
    if ret ≠ NO_ERROR then
      do_clone_session_get_clean_up ret session ctx w
    else
      let session := psabpf_clone_session_id session session_id
      let w := w.call (.psabpf_clone_session_id session_id)
      let found := L.psabpf_clone_session_exists w.store ctx session
      let w := w.call (.psabpf_clone_session_exists ctx session)
      if !found then
        let ret := ENOENT
        do_clone_session_get_clean_up ret session ctx w
      else
        do_clone_session_get_finish print_clone_session ret session_id_specified argv
          session ctx w
  else
    do_clone_session_get_finish print_clone_session ret session_id_specified argv
      session ctx w

/-- Whether a logged call releases a session context. -/
def Call.is_clone_session_context_free : Call → Bool
  | .psabpf_clone_session_context_free _ => true
  | _ => false

/-! ## `CLI/pipeline.c`: loading a pipeline -/

/-- The pipeline primitives of `psabpf.h` and `psabpf_pipeline.h` that
`do_pipeline_load` calls, whose bodies are not among the sources.
`psabpf_context_init` is the content of a context right after
initialisation; `psabpf_pipeline_exists` is a read of the store;
`psabpf_pipeline_load` is given the context and the path (`none` for `NULL`)
and returns its result and the store it leaves. -/
structure PipelineLib (σ : Type) where
  psabpf_context_init : psabpf_context_t
  psabpf_pipeline_exists : σ → psabpf_context_t → Bool
  psabpf_pipeline_load : σ → psabpf_context_t → Option String → Int × σ

/-- Modelled from the spec: `psabpf_context_set_pipeline` (body not among the
sources) binds the context to a pipeline identifier. -/
def psabpf_context_set_pipeline (ctx : psabpf_context_t) (id : Nat) : psabpf_context_t :=
  { ctx with pipeline_id := id }

/-- The argument helpers of `CLI/common.h` and libc used by
`parse_pipeline_id_without_pipe_keyword`, which are not among the sources.
* `is_keyword word str` is the keyword test on a possibly `NULL` word.
* `NEXT_ARGP_RET` is the macro that steps to the next argument or makes the
  enclosing function return: the value returned (`none` when the function
  goes on) and the arguments as the macro leaves them.
* `NEXT_ARGP` is the macro that steps to the next argument; `none` stands for
  a run that does not continue past the macro.
* `strtoul str` with base 0: the value, and whether `*endptr` is non-zero,
  that is whether characters were left unparsed. -/
structure ArgpLib where
  is_keyword : Option String → String → Bool
  NEXT_ARGP_RET : List String → Option Int × List String
  NEXT_ARGP : List String → Option (List String)
  strtoul : Option String → Nat × Bool

/-- The `parse_pipeline_id_without_pipe_keyword` of `pipeline.c`, lines
96-111: the result, the remaining arguments and the content of `*id`; `none`
when the run ends inside `NEXT_ARGP`. -/
def parse_pipeline_id_without_pipe_keyword (A : ArgpLib) (argv : List String) (id : Nat) :
    Option (Int × List String × Nat) :=
  if !A.is_keyword argv.head? "id" then
    some (EINVAL, argv, id)
  else
    let n := A.NEXT_ARGP_RET argv
    let argv := n.2
    match n.1 with
    | some code => some (code, argv, id)
    | none =>
      let r := A.strtoul argv.head?
      let id := store_sized 4 r.1
      if r.2 then
        some (EINVAL, argv, id)
      else
        match A.NEXT_ARGP argv with
        | none => none
        | some argv => some (NO_ERROR, argv, id)

/-- The `do_pipeline_load` of `pipeline.c`, lines 113-150; `none` when the
run ends inside `NEXT_ARGP`. -/
def do_pipeline_load {σ : Type} (A : ArgpLib) (P : PipelineLib σ) (argv : List String)
    (w : World σ) : Option (Int × World σ) :=
  let id := 0
  match parse_pipeline_id_without_pipe_keyword A argv id with
  | none => none
  | some p =>
    let argv := p.2.1
    let id := p.2.2
    if p.1 ≠ NO_ERROR then
      some (EINVAL, w)
    else if argv.length < 1 then
      some (EINVAL, w)
    else if argv.length > 1 then
      some (EINVAL, w)
    else
      let file := argv.head?
      let ctx := P.psabpf_context_init
      let w := w.call .psabpf_context_init
      let ctx := psabpf_context_set_pipeline ctx id
      let w := w.call (.psabpf_context_set_pipeline id)
      let found := P.psabpf_pipeline_exists w.store ctx
      let w := w.call (.psabpf_pipeline_exists ctx)
      if found then
        let w := w.call (.psabpf_context_free ctx)
        some (EEXIST, w)
      else
        let r := w.invoke (.psabpf_pipeline_load ctx file)
          (fun s => P.psabpf_pipeline_load s ctx file)
        let ret := r.1
        if ret ≠ 0 then
          let w := r.2.call (.psabpf_context_free ctx)
          some (ret, w)
        else
          let w := r.2.call (.psabpf_context_free ctx)
          some (NO_ERROR, w)

/-! ## The register accessor, `lib/psabpf_register.c`

The structures below are declared in `psabpf.h`, which is not among the
sources; they carry the members `psabpf_register.c` reads and writes. -/

/-- Modelled from the spec: the loaded type metadata of a pipeline
(`psabpf_btf_t`); `btf` is the handle of the type graph. -/
structure psabpf_btf_t where
  btf : Nat
deriving DecidableEq, Repr

/-- Modelled from the spec: a struct field descriptor: coarse type tag, byte
offset, byte length and name. -/
structure psabpf_struct_field_descriptor_t where
  type : Nat
  data_offset : Nat
  data_len : Nat
  name : String
deriving DecidableEq, Repr

/-- Modelled from the spec: a descriptor set is an ordered sequence of
descriptors. -/
abbrev psabpf_struct_field_descriptor_set_t := List psabpf_struct_field_descriptor_t

/-- Modelled from the spec: a struct field set is the ordered sequence of raw
byte blobs supplied by the caller. -/
abbrev psabpf_struct_field_set_t := List (List Nat)

/-- A pointer into a raw buffer: the buffer (`none` for `NULL`) and the byte
offset added to it. -/
structure byte_ptr where
  base : Option (List Nat)
  offset : Nat
deriving DecidableEq, Repr

/-- The view `psabpf_struct_field_t` through which a field is shown: the
members `psabpf_register_get_next_field` assigns. -/
structure psabpf_struct_field_t where
  type : Nat
  data_len : Nat
  name : String
  data : byte_ptr
deriving DecidableEq, Repr

/-- The `psabpf_register_context_t`: the members `psabpf_register.c` uses. -/
structure psabpf_register_context_t where
  reg : psabpf_bpf_map_descriptor_t
  btf_metadata : psabpf_btf_t
  key_fds : psabpf_struct_field_descriptor_set_t
  value_fds : psabpf_struct_field_descriptor_set_t
deriving DecidableEq, Repr

/-- The `psabpf_register_entry_t`: the members `psabpf_register.c` uses; a raw
buffer is `none` while it is `NULL`. -/
structure psabpf_register_entry_t where
  entry_key : psabpf_struct_field_set_t
  raw_key : Option (List Nat)
  raw_value : Option (List Nat)
  current_field_id : Nat
  current : psabpf_struct_field_t
deriving DecidableEq, Repr

/-- The helpers of `common.c`, `btf.c` and libbpf that `psabpf_register.c`
calls and whose bodies are not among the sources.  An argument passed by
address to be filled comes back in the result.
* `load_btf psabpf_ctx &btf`: result, the metadata, the store.
* `open_bpf_map psabpf_ctx name &btf &md`: result, the descriptor, the store.
* `psabtf_get_member_type_id_by_name btf type_id member`: a type id.
* `parse_struct_type &btf type_id data_size &fds`: result and the descriptor
  set it leaves.
* `close_object_fd &fd`: the content of `fd` afterwards, the store.
* `malloc size`: the buffer (`none` for `NULL`), the store.
* `construct_struct_from_fields &field_set &fds buffer buffer_len`: result and
  the buffer content.
* `bpf_map_lookup_elem fd key value`: result, `errno`, the value buffer. -/
structure RegLib (σ : Type) where
  load_btf : σ → psabpf_context_t → psabpf_btf_t → Int × psabpf_btf_t × σ
  open_bpf_map : σ → psabpf_context_t → String → psabpf_btf_t →
    psabpf_bpf_map_descriptor_t → Int × psabpf_bpf_map_descriptor_t × σ
  psabtf_get_member_type_id_by_name : Nat → Nat → String → Nat
  parse_struct_type : psabpf_btf_t → Nat → Nat → psabpf_struct_field_descriptor_set_t →
    Int × psabpf_struct_field_descriptor_set_t
  close_object_fd : σ → Int → Int × σ
  malloc : σ → Nat → Option (List Nat) × σ
  construct_struct_from_fields : psabpf_struct_field_set_t →
    psabpf_struct_field_descriptor_set_t → List Nat → Nat → Int × List Nat
  bpf_map_lookup_elem : σ → Int → List Nat → List Nat → Int × Int × List Nat

/-- The `psabpf_register_ctx_init`, lines 28-33, on a non-`NULL` context:
`memset` to zero. -/
def psabpf_register_ctx_init : psabpf_register_context_t :=
  { reg := { fd := 0, key_size := 0, value_size := 0, btf_type_id := 0, max_entries := 0 },
    btf_metadata := { btf := 0 }, key_fds := [], value_fds := [] }

/-- The `psabpf_register_entry_init`, lines 82-87, on a non-`NULL` entry:
`memset` to zero. -/
def psabpf_register_entry_init : psabpf_register_entry_t :=
  { entry_key := [], raw_key := none, raw_value := none, current_field_id := 0,
    current := { type := 0, data_len := 0, name := "", data := { base := none, offset := 0 } } }

/-- The `fill_key_btf_info`, lines 45-49: the result of `parse_struct_type` for
the `key` member, the context with the key descriptor set it left, the
world. -/
def fill_key_btf_info {σ : Type} (R : RegLib σ) (ctx : psabpf_register_context_t)
    (w : World σ) : Int × psabpf_register_context_t × World σ :=
  let type_id := R.psabtf_get_member_type_id_by_name ctx.btf_metadata.btf
    ctx.reg.btf_type_id "key"
  let w := w.call (.psabtf_get_member_type_id_by_name ctx.btf_metadata.btf
    ctx.reg.btf_type_id "key")
  let r := R.parse_struct_type ctx.btf_metadata type_id ctx.reg.key_size ctx.key_fds
  let w := w.call (.parse_struct_type type_id ctx.reg.key_size)
  (r.1, { ctx with key_fds := r.2 }, w)

/-- The `fill_value_btf_info`, lines 51-55: as `fill_key_btf_info`, for the
`value` member and the value descriptor set. -/
def fill_value_btf_info {σ : Type} (R : RegLib σ) (ctx : psabpf_register_context_t)
    (w : World σ) : Int × psabpf_register_context_t × World σ :=
  let type_id := R.psabtf_get_member_type_id_by_name ctx.btf_metadata.btf
    ctx.reg.btf_type_id "value"
  let w := w.call (.psabtf_get_member_type_id_by_name ctx.btf_metadata.btf
    ctx.reg.btf_type_id "value")
  let r := R.parse_struct_type ctx.btf_metadata type_id ctx.reg.value_size ctx.value_fds
  let w := w.call (.parse_struct_type type_id ctx.reg.value_size)
  (r.1, { ctx with value_fds := r.2 }, w)

/-- The `psabpf_register_ctx_name`, lines 57-80.  A pointer argument is
`none` when it is `NULL`.  The result is the return value, the context as the
call leaves it, and the world.  In the condition of line 73 the right operand
of `&&` is evaluated only when the left one holds. -/
def psabpf_register_ctx_name {σ : Type} (R : RegLib σ) (psabpf_ctx : Option psabpf_context_t)
    (ctx : Option psabpf_register_context_t) (name : Option String) (w : World σ) :
    Int × Option psabpf_register_context_t × World σ :=
  match psabpf_ctx, ctx, name with
  | some psabpf_ctx, some ctx, some name =>
    let b := R.load_btf w.store psabpf_ctx ctx.btf_metadata
    let ctx := { ctx with btf_metadata := b.2.1 }
    let w : World σ := { store := b.2.2, log := w.log ++ [.load_btf psabpf_ctx] }
    if b.1 ≠ NO_ERROR then
      (ENOTSUP, some ctx, w)
    else
      let o := R.open_bpf_map w.store psabpf_ctx name ctx.btf_metadata ctx.reg
      let ctx := { ctx with reg := o.2.1 }
      let w : World σ := { store := o.2.2, log := w.log ++ [.open_bpf_map psabpf_ctx name] }
      let ret := o.1
      if ret ≠ NO_ERROR then
        (ret, some ctx, w)
      else
        let k := fill_key_btf_info R ctx w
        if k.1 ≠ NO_ERROR then
          let v := fill_value_btf_info R k.2.1 k.2.2
          if v.1 ≠ NO_ERROR then
            let ctx := v.2.1
            let w := v.2.2
            let c := R.close_object_fd w.store ctx.reg.fd
            let w : World σ :=
              { store := c.2, log := w.log ++ [.close_object_fd ctx.reg.fd] }
            let ctx := { ctx with reg := { ctx.reg with fd := c.1 } }
            (EOPNOTSUPP, some ctx, w)
          else
            (NO_ERROR, some v.2.1, v.2.2)
        else
          (NO_ERROR, some k.2.1, k.2.2)
  | _, _, _ => (EINVAL, ctx, w)

/-- The `allocate_key_buffer`, lines 116-126: the pointer returned, the
entry, the world. -/
def allocate_key_buffer {σ : Type} (R : RegLib σ) (ctx : psabpf_register_context_t)
    (entry : psabpf_register_entry_t) (w : World σ) :
    Option (List Nat) × psabpf_register_entry_t × World σ :=
  if entry.raw_key ≠ none then
    (entry.raw_key, entry, w)
  else
    let m := w.invoke (.malloc ctx.reg.key_size) (fun s => R.malloc s ctx.reg.key_size)
    let entry := { entry with raw_key := m.1 }
    (entry.raw_key, entry, m.2)

/-- The `allocate_value_buffer`, lines 128-138. -/
def allocate_value_buffer {σ : Type} (R : RegLib σ) (ctx : psabpf_register_context_t)
    (entry : psabpf_register_entry_t) (w : World σ) :
    Option (List Nat) × psabpf_register_entry_t × World σ :=
  if entry.raw_value ≠ none then
    (entry.raw_value, entry, w)
  else
    let m := w.invoke (.malloc ctx.reg.value_size) (fun s => R.malloc s ctx.reg.value_size)
    let entry := { entry with raw_value := m.1 }
    (entry.raw_value, entry, m.2)

/-- Modelled from the spec: `get_struct_field_descriptor` (body in `common.c`,
not among the sources) gives the descriptor at the cursor, and `NULL` when the
cursor is past the descriptor count. -/
def get_struct_field_descriptor (fds : psabpf_struct_field_descriptor_set_t) (index : Nat) :
    Option psabpf_struct_field_descriptor_t :=
  fds.get? index

/-- The `psabpf_register_get_next_field`, lines 140-160: the pointer returned
(`none` for `NULL`) and the entry as the call leaves it. -/
def psabpf_register_get_next_field (ctx : Option psabpf_register_context_t)
    (entry : Option psabpf_register_entry_t) :
    Option psabpf_struct_field_t × Option psabpf_register_entry_t :=
  match ctx, entry with
  | some ctx, some entry =>
    match get_struct_field_descriptor ctx.value_fds entry.current_field_id with
    | none => (none, some { entry with current_field_id := 0 })
    | some fd =>
      let current : psabpf_struct_field_t :=
        { type := fd.type, data_len := fd.data_len, name := fd.name,
          data := { base := entry.raw_value, offset := fd.data_offset } }
      let entry := { entry with current := current }
      let entry := { entry with current_field_id := entry.current_field_id + 1 }
      (some entry.current, some entry)
  | _, _ => (none, entry)

/-- The `psabpf_register_get`, lines 162-182, on non-`NULL` arguments: the
return value, the entry as the call leaves it, the world. -/
def psabpf_register_get {σ : Type} (R : RegLib σ) (ctx : psabpf_register_context_t)
    (entry : psabpf_register_entry_t) (w : World σ) :
    Int × psabpf_register_entry_t × World σ :=
  let a := allocate_key_buffer R ctx entry w
  let entry := a.2.1
  let w := a.2.2
  match a.1 with
  | none => (ENOMEM, entry, w)
  | some raw_key =>
    let c := R.construct_struct_from_fields entry.entry_key ctx.key_fds raw_key
      ctx.reg.key_size
    let w := w.call (.construct_struct_from_fields ctx.reg.key_size)
    let entry := { entry with raw_key := some c.2 }
    let ret := c.1
    if ret ≠ NO_ERROR then
      (ret, entry, w)
    else
      let v := allocate_value_buffer R ctx entry w
      let entry := v.2.1
      let w := v.2.2
      match v.1 with
      | none => (ENOMEM, entry, w)
      | some raw_value =>
        let l := R.bpf_map_lookup_elem w.store ctx.reg.fd c.2 raw_value
        let w := w.call (.bpf_map_lookup_elem ctx.reg.fd c.2)
        let entry := { entry with raw_value := some l.2.2 }
        let ret := l.1
        if ret ≠ 0 then
          let ret := l.2.1
          (ret, entry, w)
        else
          (NO_ERROR, entry, w)

/-- The fields that repeated `psabpf_register_get_next_field` calls return
before the first `NULL`, for at most `fuel` calls. -/
def register_fields (ctx : psabpf_register_context_t) :
    Nat → psabpf_register_entry_t → List psabpf_struct_field_t
  | 0, _ => []
  | fuel + 1, entry =>
    match psabpf_register_get_next_field (some ctx) (some entry) with
    | (some field, some entry) => field :: register_fields ctx fuel entry
    | _ => []

/-- The entry as one `psabpf_register_get_next_field` call on a non-`NULL`
context and entry leaves it. -/
def register_step (ctx : psabpf_register_context_t) (entry : psabpf_register_entry_t) :
    psabpf_register_entry_t :=
  match (psabpf_register_get_next_field (some ctx) (some entry)).2 with
  | some entry1 => entry1
  | none => entry

/-- The entry after `k` consecutive `psabpf_register_get_next_field` calls. -/
def register_after_calls (ctx : psabpf_register_context_t) :
    Nat → psabpf_register_entry_t → psabpf_register_entry_t
  | 0, entry => entry
  | k + 1, entry => register_step ctx (register_after_calls ctx k entry)

/-- The view of one descriptor over a raw value, in the words of the unpack
contract: name, type tag, byte length, and the pointer into the raw buffer at
the descriptor's byte offset. -/
def descriptor_view (raw_value : Option (List Nat)) (fd : psabpf_struct_field_descriptor_t) :
    psabpf_struct_field_t :=
  { type := fd.type, data_len := fd.data_len, name := fd.name,
    data := { base := raw_value, offset := fd.data_offset } }

/-- The `psabpf_register_set`, lines 184-187: the return value, and the
context, the entry and the world as the call leaves them. -/
def psabpf_register_set {σ : Type} (ctx : Option psabpf_register_context_t)
    (entry : Option psabpf_register_entry_t) (w : World σ) :
    Int × Option psabpf_register_context_t × Option psabpf_register_entry_t × World σ :=
  -- TODO implement
  (NO_ERROR, ctx, entry, w)

/-- The `psabpf_register_reset`, lines 189-192. -/
def psabpf_register_reset {σ : Type} (ctx : Option psabpf_register_context_t)
    (entry : Option psabpf_register_entry_t) (w : World σ) :
    Int × Option psabpf_register_context_t × Option psabpf_register_entry_t × World σ :=
  -- TODO implement
  (NO_ERROR, ctx, entry, w)

/-! ## A concrete store

A small executable instance of `PreLib`, used to run the commands on concrete
inputs. -/

/-- A store with an explicit existence record: the session ids present and
the member rows, each row a session id with its entry. -/
structure SampleStore where
  sessions : List Nat
  members : List (Nat × psabpf_clone_session_entry_t)
deriving DecidableEq, Repr

/-- Whether a row is the member `(id, egress_port, instance)` of an entry. -/
def SampleStore.same_key (id : Nat) (e : psabpf_clone_session_entry_t)
    (row : Nat × psabpf_clone_session_entry_t) : Bool :=
  row.1 == id && row.2.egress_port == e.egress_port && row.2.instance_ == e.instance_

/-- The member stored under `(id, egress_port, instance)`, if any. -/
def SampleStore.get (s : SampleStore) (id egress_port instance_ : Nat) :
    Option psabpf_clone_session_entry_t :=
  (s.members.find? (fun row =>
    row.1 == id && row.2.egress_port == egress_port && row.2.instance_ == instance_)).map
    Prod.snd

/-- The all-zero map descriptor. -/
def zero_map_descriptor : psabpf_bpf_map_descriptor_t :=
  { fd := 0, key_size := 0, value_size := 0, btf_type_id := 0, max_entries := 0 }

/-- The primitives over `SampleStore`: create records the id, delete removes
it, update is an upsert on the member key, delete of a member fails with
`ENOENT` when the key is not stored. -/
def sampleLib : PreLib SampleStore where
  psabpf_clone_session_context_init :=
    { id := 0, session_map := zero_map_descriptor,
      current_entry := psabpf_clone_session_entry_init,
      current_egress_port := 0, current_instance := 0 }
  psabpf_clone_session_exists := fun s _ session => s.sessions.contains session.id
  psabpf_clone_session_create := fun s _ session =>
    (NO_ERROR, { s with sessions := session.id :: s.sessions })
  psabpf_clone_session_delete := fun s _ session =>
    (NO_ERROR, { s with sessions := s.sessions.filter (fun i => i != session.id) })
  psabpf_clone_session_entry_update := fun s _ session e =>
    (NO_ERROR, { s with members :=
      (session.id, e) :: s.members.filter (fun row => !SampleStore.same_key session.id e row) })
  psabpf_clone_session_entry_delete := fun s _ session e =>
    if s.members.any (SampleStore.same_key session.id e) then
      (NO_ERROR, { s with members :=
        (s.members.filter (fun row => !SampleStore.same_key session.id e row)) })
    else (ENOENT, s)

/-- Decimal value of a list of digit characters, `none` on any other
character. -/
def sample_digits : List Char → Nat → Option Nat
  | [], acc => some acc
  | c :: cs, acc =>
    if 48 ≤ c.toNat ∧ c.toNat ≤ 57 then sample_digits cs (10 * acc + (c.toNat - 48))
    else none

/-- Decimal value of a non-empty string of digits. -/
def sample_number (s : String) : Option Nat :=
  if s.data = [] then none else sample_digits s.data 0

/-- A keyword/value parser for the sample command line: the rows are tried in
table order; a row whose keyword heads the arguments consumes the keyword and
a decimal value, a required row whose keyword is missing fails with `EINVAL`,
an optional one stores nothing. -/
def sample_parse_keyword_value_pairs :
    List String → List parser_keyword_value_pair_t → Int × List String × List (Option Nat)
  | args, [] => (NO_ERROR, args, [])
  | args, row :: rows =>
    if args.head? = some row.keyword then
      match args.tail.head?.bind sample_number with
      | some n =>
        let r := sample_parse_keyword_value_pairs (args.drop 2) rows
        (r.1, r.2.1, some n :: r.2.2)
      | none => (EINVAL, args, [])
    else if row.required then (EINVAL, args, [])
    else
      let r := sample_parse_keyword_value_pairs args rows
      (r.1, r.2.1, none :: r.2.2)

/-- The command-line helpers used to run the entry points on concrete
arguments: `pipe N` selects the pipeline, a keyword is matched exactly, and
`NEXT_ARG` drops one argument. -/
def sampleCli : CliLib SampleStore where
  psabpf_context_init := { pipeline_id := 0 }
  parse_pipeline_id := fun _ args ctx =>
    if args.head? = some "pipe" then
      match args.tail.head?.bind sample_number with
      | some n => (NO_ERROR, args.drop 2, { pipeline_id := n })
      | none => (EINVAL, args, ctx)
    else (EINVAL, args, ctx)
  parse_keyword_value_pairs := sample_parse_keyword_value_pairs
  is_keyword := fun word str => decide (word = some str)
  NEXT_ARG := fun args => some (args.drop 1)

/-- A world whose store holds session 7 only, with no member and an empty
log. -/
def sampleWorld : World SampleStore :=
  { store := { sessions := [7], members := [] }, log := [] }

/-- Register helpers for concrete runs.  The store is the list of open
descriptors.  The metadata loads when `has_btf`; the map opens as descriptor 3
with a 4-byte key, an 8-byte value and type id 10; the `key` and `value`
members have type ids 11 and 12, which parse to `key_layout` and
`value_layout` (`none`: not a flat aggregate). -/
def sampleReg (has_btf : Bool)
    (key_layout value_layout : Option psabpf_struct_field_descriptor_set_t) :
    RegLib (List Int) where
  load_btf := fun s _ btf =>
    if has_btf then (NO_ERROR, { btf := 1 }, s) else (ENOENT, btf, s)
  open_bpf_map := fun s _ _ _ _ =>
    (NO_ERROR, { fd := 3, key_size := 4, value_size := 8, btf_type_id := 10,
                 max_entries := 1 }, 3 :: s)
  psabtf_get_member_type_id_by_name := fun _ type_id member =>
    if member = "key" then type_id + 1 else if member = "value" then type_id + 2 else 0
  parse_struct_type := fun _ type_id _ fds =>
    if type_id = 11 then
      match key_layout with
      | some l => (NO_ERROR, l)
      | none => (ENOTSUP, fds)
    else if type_id = 12 then
      match value_layout with
      | some l => (NO_ERROR, l)
      | none => (ENOTSUP, fds)
    else (EINVAL, fds)
  close_object_fd := fun s fd => (-1, s.filter (fun x => x != fd))
  malloc := fun s size => (some (List.replicate size 0), s)
  construct_struct_from_fields := fun fields fds buffer len =>
    if fields.length = fds.length then (NO_ERROR, (fields.flatten ++ buffer).take len)
    else (EINVAL, buffer)
  bpf_map_lookup_elem := fun s fd _ value =>
    if s.contains fd then (0, 0, List.replicate value.length 7) else (-1, 9, value)

/-- A key layout of one 4-byte member. -/
def sampleKeyLayout : psabpf_struct_field_descriptor_set_t :=
  [ { type := 1, data_offset := 0, data_len := 4, name := "index" } ]

/-- A value layout of two 4-byte members. -/
def sampleValueLayout : psabpf_struct_field_descriptor_set_t :=
  [ { type := 1, data_offset := 0, data_len := 4, name := "packets" },
    { type := 1, data_offset := 4, data_len := 4, name := "bytes" } ]

/-- A world with no open descriptor and an empty log. -/
def sampleRegWorld : World (List Int) :=
  { store := [], log := [] }

/-- Whether a logged call is a `bpf_map_lookup_elem`. -/
def Call.is_bpf_map_lookup_elem : Call → Bool
  | .bpf_map_lookup_elem _ _ => true
  | _ => false

/-- The register helpers of `sampleReg` with an allocator that always
fails. -/
def sampleRegNoMemory : RegLib (List Int) :=
  { sampleReg true (some sampleKeyLayout) (some sampleValueLayout) with
    malloc := fun s _ => (none, s) }

/-- A register context bound by hand to the sample map: descriptor 3, 4-byte
key, 8-byte value, both layouts present. -/
def sampleRegCtx : psabpf_register_context_t :=
  { reg := { fd := 3, key_size := 4, value_size := 8, btf_type_id := 10, max_entries := 1 },
    btf_metadata := { btf := 1 }, key_fds := sampleKeyLayout, value_fds := sampleValueLayout }

/-- A world in which descriptor 3 is open. -/
def sampleRegOpenWorld : World (List Int) :=
  { store := [3], log := [] }

/-- An entry whose key is the one 4-byte blob `[0, 0, 0, 0]`. -/
def sampleRegEntry : psabpf_register_entry_t :=
  { psabpf_register_entry_init with entry_key := [[0, 0, 0, 0]] }

/-- A stand-in for `print_clone_session` on concrete runs: it prints nothing
and returns `NO_ERROR`. -/
def samplePrint (_ctx : psabpf_context_t) (session : Option psabpf_clone_session_ctx_t)
    (w : World SampleStore) : Int × Option psabpf_clone_session_ctx_t × World SampleStore :=
  (NO_ERROR, session, w)

/-- Argument helpers for concrete runs: a keyword is matched exactly,
`NEXT_ARGP_RET` drops one argument and returns 1 (`EPERM`) when none is left,
`NEXT_ARGP` drops one argument, and `strtoul` reads a decimal number. -/
def sampleArgp : ArgpLib where
  is_keyword := fun word str => decide (word = some str)
  NEXT_ARGP_RET := fun args =>
    if (args.drop 1).length < 1 then (some 1, args.drop 1) else (none, args.drop 1)
  NEXT_ARGP := fun args => some (args.drop 1)
  strtoul := fun str =>
    match str.bind sample_number with
    | some n => (n, false)
    | none => (0, true)

/-- Pipeline primitives for concrete runs: the store is the list of loaded
pipeline ids; loading records the id and fails with `ENOENT` on a `NULL` or
empty path. -/
def samplePipeline : PipelineLib (List Nat) where
  psabpf_context_init := { pipeline_id := 0 }
  psabpf_pipeline_exists := fun s ctx => s.contains ctx.pipeline_id
  psabpf_pipeline_load := fun s ctx file =>
    match file with
    | some path => if path = "" then (ENOENT, s) else (NO_ERROR, ctx.pipeline_id :: s)
    | none => (ENOENT, s)

/-- A world in which pipeline 1 is loaded. -/
def samplePipelineWorld : World (List Nat) :=
  { store := [1], log := [] }

/-! ## Theorems -/

/-- C1: `clone_session_create` returns `EEXIST` without calling
`psabpf_clone_session_create` (the store stays as it was) when
`psabpf_clone_session_exists` reports the id present; when it reports the id
absent, the function calls `psabpf_clone_session_create` once and returns
exactly that call's value. -/
theorem clone_session_create_contract {σ : Type} (L : PreLib σ) (ctx : psabpf_context_t)
    (id : psabpf_clone_session_id_t) (w : World σ) :
    (L.psabpf_clone_session_exists w.store ctx (session_for L id) = true →
      (clone_session_create L ctx id w).1 = EEXIST ∧
      (clone_session_create L ctx id w).2.store = w.store ∧
      (∀ c s, Call.psabpf_clone_session_create c s ∉
        w.calls_since (clone_session_create L ctx id w).2) ∧
      w.calls_since (clone_session_create L ctx id w).2 =
        [.psabpf_clone_session_context_init, .psabpf_clone_session_id id,
         .psabpf_clone_session_exists ctx (session_for L id),
         .psabpf_clone_session_context_free (session_for L id)]) ∧
    (L.psabpf_clone_session_exists w.store ctx (session_for L id) = false →
      (clone_session_create L ctx id w).1 =
        (L.psabpf_clone_session_create w.store ctx (session_for L id)).1 ∧
      (clone_session_create L ctx id w).2.store =
        (L.psabpf_clone_session_create w.store ctx (session_for L id)).2 ∧
      w.calls_since (clone_session_create L ctx id w).2 =
        [.psabpf_clone_session_context_init, .psabpf_clone_session_id id,
         .psabpf_clone_session_exists ctx (session_for L id),
         .psabpf_clone_session_create ctx (session_for L id),
         .psabpf_clone_session_context_free (session_for L id)]) := by
  constructor
  · intro h
    simp [clone_session_create, World.call, World.calls_since, session_for, h] at *
  · intro h
    simp [clone_session_create, World.call, World.invoke, World.calls_since, session_for, h] at *

/-- C1 at a concrete input: creating the present session 7 gives `EEXIST`,
creating the absent session 8 gives the primitive's `NO_ERROR`. -/
theorem clone_session_create_contract_witness :
    (clone_session_create sampleLib ⟨1⟩ 7 sampleWorld).1 = EEXIST ∧
    (clone_session_create sampleLib ⟨1⟩ 8 sampleWorld).1 = NO_ERROR :=
  ⟨((clone_session_create_contract sampleLib ⟨1⟩ 7 sampleWorld).1 (by decide)).1,
   ((clone_session_create_contract sampleLib ⟨1⟩ 8 sampleWorld).2 (by decide)).1⟩

/-- C2: `clone_session_delete` returns `ENOENT` without calling
`psabpf_clone_session_delete` (the store stays as it was) when
`psabpf_clone_session_exists` reports the id absent; when it reports the id
present, the function calls `psabpf_clone_session_delete` once and returns
exactly that call's value. -/
theorem clone_session_delete_contract {σ : Type} (L : PreLib σ) (ctx : psabpf_context_t)
    (id : psabpf_clone_session_id_t) (w : World σ) :
    (L.psabpf_clone_session_exists w.store ctx (session_for L id) = false →
      (clone_session_delete L ctx id w).1 = ENOENT ∧
      (clone_session_delete L ctx id w).2.store = w.store ∧
      (∀ c s, Call.psabpf_clone_session_delete c s ∉
        w.calls_since (clone_session_delete L ctx id w).2) ∧
      w.calls_since (clone_session_delete L ctx id w).2 =
        [.psabpf_clone_session_context_init, .psabpf_clone_session_id id,
         .psabpf_clone_session_exists ctx (session_for L id),
         .psabpf_clone_session_context_free (session_for L id)]) ∧
    (L.psabpf_clone_session_exists w.store ctx (session_for L id) = true →
      (clone_session_delete L ctx id w).1 =
        (L.psabpf_clone_session_delete w.store ctx (session_for L id)).1 ∧
      (clone_session_delete L ctx id w).2.store =
        (L.psabpf_clone_session_delete w.store ctx (session_for L id)).2 ∧
      w.calls_since (clone_session_delete L ctx id w).2 =
        [.psabpf_clone_session_context_init, .psabpf_clone_session_id id,
         .psabpf_clone_session_exists ctx (session_for L id),
         .psabpf_clone_session_delete ctx (session_for L id),
         .psabpf_clone_session_context_free (session_for L id)]) := by
  constructor
  · intro h
    simp [clone_session_delete, World.call, World.calls_since, session_for, h] at *
  · intro h
    simp [clone_session_delete, World.call, World.invoke, World.calls_since, session_for, h] at *

/-- C2 at a concrete input: deleting the absent session 8 gives `ENOENT`,
deleting the present session 7 gives the primitive's `NO_ERROR`. -/
theorem clone_session_delete_contract_witness :
    (clone_session_delete sampleLib ⟨1⟩ 8 sampleWorld).1 = ENOENT ∧
    (clone_session_delete sampleLib ⟨1⟩ 7 sampleWorld).1 = NO_ERROR :=
  ⟨((clone_session_delete_contract sampleLib ⟨1⟩ 8 sampleWorld).1 (by decide)).1,
   ((clone_session_delete_contract sampleLib ⟨1⟩ 7 sampleWorld).2 (by decide)).1⟩

/-- C3: when the session is absent, `clone_session_add_member` returns
`ENOENT`, issues no `psabpf_clone_session_entry_update` and leaves the store
unchanged, whatever the port, instance, class of service and truncation
arguments are: the only store primitive called is the existence check. -/
theorem clone_session_add_member_absent {σ : Type} (L : PreLib σ) (ctx : psabpf_context_t)
    (id : psabpf_clone_session_id_t) (egress_port instance_ class_of_service : Nat)
    (truncate : Bool) (packet_length_bytes : Nat) (w : World σ)
    (h : L.psabpf_clone_session_exists w.store ctx (session_for L id) = false) :
    (clone_session_add_member L ctx id egress_port instance_ class_of_service truncate
      packet_length_bytes w).1 = ENOENT ∧
    (clone_session_add_member L ctx id egress_port instance_ class_of_service truncate
      packet_length_bytes w).2.store = w.store ∧
    (∀ c s e, Call.psabpf_clone_session_entry_update c s e ∉
      w.calls_since (clone_session_add_member L ctx id egress_port instance_
        class_of_service truncate packet_length_bytes w).2) ∧
    w.calls_since (clone_session_add_member L ctx id egress_port instance_
        class_of_service truncate packet_length_bytes w).2 =
      [.psabpf_clone_session_context_init, .psabpf_clone_session_id id,
       .psabpf_clone_session_exists ctx (session_for L id),
       .psabpf_clone_session_context_free (session_for L id),
       .psabpf_clone_session_entry_free none] := by
  simp [clone_session_add_member, World.call, World.calls_since, session_for, h] at *

/-- C3 at a concrete input: adding port 5, instance 0 with truncation to the
absent session 8 gives `ENOENT` and leaves the store as it was. -/
theorem clone_session_add_member_absent_witness :
    (clone_session_add_member sampleLib ⟨1⟩ 8 5 0 0 true 128 sampleWorld).1 = ENOENT ∧
    (clone_session_add_member sampleLib ⟨1⟩ 8 5 0 0 true 128 sampleWorld).2.store =
      sampleWorld.store :=
  ⟨(clone_session_add_member_absent sampleLib ⟨1⟩ 8 5 0 0 true 128 sampleWorld
      (by decide)).1,
   (clone_session_add_member_absent sampleLib ⟨1⟩ 8 5 0 0 true 128 sampleWorld
      (by decide)).2.1⟩

/-- C4: when the session is absent, `clone_session_del_member` returns
`ENOENT` and issues no `psabpf_clone_session_entry_delete`; when it is
present, it issues exactly one `psabpf_clone_session_entry_delete`, for the
entry carrying the given egress port and instance, and returns that call's
result. -/
theorem clone_session_del_member_contract {σ : Type} (L : PreLib σ)
    (ctx : psabpf_context_t) (id : psabpf_clone_session_id_t)
    (egress_port instance_ : Nat) (w : World σ) :
    (L.psabpf_clone_session_exists w.store ctx (session_for L id) = false →
      (clone_session_del_member L ctx id egress_port instance_ w).1 = ENOENT ∧
      (clone_session_del_member L ctx id egress_port instance_ w).2.store = w.store ∧
      (∀ c s e, Call.psabpf_clone_session_entry_delete c s e ∉
        w.calls_since (clone_session_del_member L ctx id egress_port instance_ w).2) ∧
      w.calls_since (clone_session_del_member L ctx id egress_port instance_ w).2 =
        [.psabpf_clone_session_context_init, .psabpf_clone_session_id id,
         .psabpf_clone_session_exists ctx (session_for L id),
         .psabpf_clone_session_context_free (session_for L id),
         .psabpf_clone_session_entry_free none]) ∧
    (L.psabpf_clone_session_exists w.store ctx (session_for L id) = true →
      ∃ entry : psabpf_clone_session_entry_t,
        entry = { egress_port := egress_port, instance_ := instance_,
                  class_of_service := 0, truncate := 0, packet_length_bytes := 0 } ∧
        (clone_session_del_member L ctx id egress_port instance_ w).1 =
          (L.psabpf_clone_session_entry_delete w.store ctx (session_for L id) entry).1 ∧
        (clone_session_del_member L ctx id egress_port instance_ w).2.store =
          (L.psabpf_clone_session_entry_delete w.store ctx (session_for L id) entry).2 ∧
        w.calls_since (clone_session_del_member L ctx id egress_port instance_ w).2 =
          [.psabpf_clone_session_context_init, .psabpf_clone_session_id id,
           .psabpf_clone_session_exists ctx (session_for L id),
           .psabpf_clone_session_entry_init,
           .psabpf_clone_session_entry_port egress_port,
           .psabpf_clone_session_entry_instance instance_,
           .psabpf_clone_session_entry_delete ctx (session_for L id) entry,
           .psabpf_clone_session_context_free (session_for L id),
           .psabpf_clone_session_entry_free (some entry)]) := by
  constructor
  · intro h
    simp [clone_session_del_member, World.call, World.calls_since, session_for, h] at *
  · intro h
    refine ⟨_, rfl, ?_⟩
    simp [clone_session_del_member, World.call, World.invoke, World.calls_since, session_for,
      psabpf_clone_session_entry_init, psabpf_clone_session_entry_port,
      psabpf_clone_session_entry_instance, h] at *

/-- C4 at a concrete input: deleting member (5, 0) of the absent session 8
gives `ENOENT`; on the present session 7, which has no such member, the
result is the primitive's `ENOENT` as well, after one delete call. -/
theorem clone_session_del_member_contract_witness :
    (clone_session_del_member sampleLib ⟨1⟩ 8 5 0 sampleWorld).1 = ENOENT ∧
    (sampleWorld.calls_since (clone_session_del_member sampleLib ⟨1⟩ 8 5 0 sampleWorld).2).length
      = 5 ∧
    (sampleWorld.calls_since (clone_session_del_member sampleLib ⟨1⟩ 7 5 0 sampleWorld).2).length
      = 9 := by
  have h1 := (clone_session_del_member_contract sampleLib ⟨1⟩ 8 5 0 sampleWorld).1 (by decide)
  have h2 := (clone_session_del_member_contract sampleLib ⟨1⟩ 7 5 0 sampleWorld).2 (by decide)
  obtain ⟨e, _, _, _, h3⟩ := h2
  exact ⟨h1.1, by rw [h1.2.2.2]; rfl, by rw [h3]; rfl⟩

/-- C5: over a store in which a successful `psabpf_clone_session_create`
makes `psabpf_clone_session_exists` true for that session and a successful
`psabpf_clone_session_delete` makes it false, a `clone_session_create` that
succeeds makes the `clone_session_create` of the same id that follows fail
with `EEXIST`, and a `clone_session_delete` that succeeds makes the
`clone_session_delete` of the same id that follows fail with `ENOENT`. -/
theorem clone_session_existence_invariant {σ : Type} (L : PreLib σ)
    (hcreate : ∀ s ctx session,
      (L.psabpf_clone_session_create s ctx session).1 = NO_ERROR →
      L.psabpf_clone_session_exists (L.psabpf_clone_session_create s ctx session).2
        ctx session = true)
    (hdelete : ∀ s ctx session,
      (L.psabpf_clone_session_delete s ctx session).1 = NO_ERROR →
      L.psabpf_clone_session_exists (L.psabpf_clone_session_delete s ctx session).2
        ctx session = false)
    (ctx : psabpf_context_t) (id : psabpf_clone_session_id_t) (w : World σ) :
    ((clone_session_create L ctx id w).1 = NO_ERROR →
      (clone_session_create L ctx id (clone_session_create L ctx id w).2).1 = EEXIST) ∧
    ((clone_session_delete L ctx id w).1 = NO_ERROR →
      (clone_session_delete L ctx id (clone_session_delete L ctx id w).2).1 = ENOENT) := by
  constructor
  · intro h
    cases hex : L.psabpf_clone_session_exists w.store ctx
        (psabpf_clone_session_id L.psabpf_clone_session_context_init id) with
    | true =>
      simp [clone_session_create, World.call, hex, EEXIST, NO_ERROR] at h
    | false =>
      simp only [clone_session_create, World.call, World.invoke, hex] at h
      have h2 := hcreate w.store ctx
        (psabpf_clone_session_id L.psabpf_clone_session_context_init id) (by simpa using h)
      simp [clone_session_create, World.call, World.invoke, hex, h2]
  · intro h
    cases hex : L.psabpf_clone_session_exists w.store ctx
        (psabpf_clone_session_id L.psabpf_clone_session_context_init id) with
    | false =>
      simp [clone_session_delete, World.call, hex, ENOENT, NO_ERROR] at h
    | true =>
      simp only [clone_session_delete, World.call, World.invoke, hex] at h
      have h2 := hdelete w.store ctx
        (psabpf_clone_session_id L.psabpf_clone_session_context_init id) (by simpa using h)
      simp [clone_session_delete, World.call, World.invoke, hex, h2]

/-- C5 at a concrete input: on the sample store, creating the absent session
8 twice gives `NO_ERROR` then `EEXIST`, and deleting the present session 7
twice gives `NO_ERROR` then `ENOENT`. -/
theorem clone_session_existence_invariant_witness :
    ((clone_session_create sampleLib ⟨1⟩ 8 sampleWorld).1 = NO_ERROR ∧
      (clone_session_create sampleLib ⟨1⟩ 8
        (clone_session_create sampleLib ⟨1⟩ 8 sampleWorld).2).1 = EEXIST) ∧
    ((clone_session_delete sampleLib ⟨1⟩ 7 sampleWorld).1 = NO_ERROR ∧
      (clone_session_delete sampleLib ⟨1⟩ 7
        (clone_session_delete sampleLib ⟨1⟩ 7 sampleWorld).2).1 = ENOENT) := by
  have hc : ∀ (s : SampleStore) (ctx : psabpf_context_t) (session : psabpf_clone_session_ctx_t),
      (sampleLib.psabpf_clone_session_create s ctx session).1 = NO_ERROR →
      sampleLib.psabpf_clone_session_exists
        (sampleLib.psabpf_clone_session_create s ctx session).2 ctx session = true := by
    intro s ctx session _
    simp [sampleLib]
  have hd : ∀ (s : SampleStore) (ctx : psabpf_context_t) (session : psabpf_clone_session_ctx_t),
      (sampleLib.psabpf_clone_session_delete s ctx session).1 = NO_ERROR →
      sampleLib.psabpf_clone_session_exists
        (sampleLib.psabpf_clone_session_delete s ctx session).2 ctx session = false := by
    intro s ctx session _
    simp [sampleLib]
  have h := clone_session_existence_invariant sampleLib hc hd ⟨1⟩
  exact ⟨⟨by decide, (h 8 sampleWorld).1 (by decide)⟩,
         ⟨by decide, (h 7 sampleWorld).2 (by decide)⟩⟩

/-- C6: for an existing session, `clone_session_add_member` with
`truncate = true` and length `len` passes to
`psabpf_clone_session_entry_update` an entry with truncation enabled and
truncate length `len`; with `truncate = false` it never applies
`psabpf_clone_session_entry_truncate_enable` and passes the freshly
initialised entry with truncation disabled and length 0, whatever `len` is.
Hence, for any member lookup `get` that returns what a successful update
stored, a successful add without truncation leaves the member with
truncation cleared, whatever the store held for that key before. -/
theorem clone_session_add_member_truncation {σ : Type} (L : PreLib σ)
    (get : σ → psabpf_clone_session_ctx_t → Nat → Nat → Option psabpf_clone_session_entry_t)
    (hget : ∀ s ctx session e,
      (L.psabpf_clone_session_entry_update s ctx session e).1 = NO_ERROR →
      get (L.psabpf_clone_session_entry_update s ctx session e).2 session
        e.egress_port e.instance_ = some e)
    (ctx : psabpf_context_t) (id : psabpf_clone_session_id_t)
    (egress_port instance_ class_of_service len : Nat) (w : World σ)
    (hex : L.psabpf_clone_session_exists w.store ctx (session_for L id) = true) :
    (∃ entry : psabpf_clone_session_entry_t,
      entry = { egress_port := egress_port, instance_ := instance_,
                class_of_service := class_of_service, truncate := 1,
                packet_length_bytes := len } ∧
      w.calls_since (clone_session_add_member L ctx id egress_port instance_
          class_of_service true len w).2 =
        [.psabpf_clone_session_context_init, .psabpf_clone_session_id id,
         .psabpf_clone_session_exists ctx (session_for L id),
         .psabpf_clone_session_entry_init,
         .psabpf_clone_session_entry_port egress_port,
         .psabpf_clone_session_entry_instance instance_,
         .psabpf_clone_session_entry_cos class_of_service,
         .psabpf_clone_session_entry_truncate_enable len,
         .psabpf_clone_session_entry_update ctx (session_for L id) entry,
         .psabpf_clone_session_context_free (session_for L id),
         .psabpf_clone_session_entry_free (some entry)] ∧
      ((clone_session_add_member L ctx id egress_port instance_
          class_of_service true len w).1 = NO_ERROR →
        get (clone_session_add_member L ctx id egress_port instance_
          class_of_service true len w).2.store (session_for L id) egress_port instance_
          = some entry)) ∧
    (∃ entry : psabpf_clone_session_entry_t,
      entry = { egress_port := egress_port, instance_ := instance_,
                class_of_service := class_of_service, truncate := 0,
                packet_length_bytes := 0 } ∧
      w.calls_since (clone_session_add_member L ctx id egress_port instance_
          class_of_service false len w).2 =
        [.psabpf_clone_session_context_init, .psabpf_clone_session_id id,
         .psabpf_clone_session_exists ctx (session_for L id),
         .psabpf_clone_session_entry_init,
         .psabpf_clone_session_entry_port egress_port,
         .psabpf_clone_session_entry_instance instance_,
         .psabpf_clone_session_entry_cos class_of_service,
         .psabpf_clone_session_entry_update ctx (session_for L id) entry,
         .psabpf_clone_session_context_free (session_for L id),
         .psabpf_clone_session_entry_free (some entry)] ∧
      (∀ n, Call.psabpf_clone_session_entry_truncate_enable n ∉
        w.calls_since (clone_session_add_member L ctx id egress_port instance_
          class_of_service false len w).2) ∧
      ((clone_session_add_member L ctx id egress_port instance_
          class_of_service false len w).1 = NO_ERROR →
        get (clone_session_add_member L ctx id egress_port instance_
          class_of_service false len w).2.store (session_for L id) egress_port instance_
          = some entry)) := by
  have hex2 : L.psabpf_clone_session_exists w.store ctx
      (psabpf_clone_session_id L.psabpf_clone_session_context_init id) = true := hex
  constructor
  · refine ⟨_, rfl, ?_, ?_⟩
    · simp [clone_session_add_member, World.call, World.invoke, World.calls_since,
        session_for, psabpf_clone_session_entry_init, psabpf_clone_session_entry_port,
        psabpf_clone_session_entry_instance, psabpf_clone_session_entry_cos,
        psabpf_clone_session_entry_truncate_enable, hex2]
    · intro h
      simp only [clone_session_add_member, World.call, World.invoke, hex2] at h ⊢
      exact hget w.store ctx _ _ (by simpa using h)
  · refine ⟨_, rfl, ?_, ?_, ?_⟩
    · simp [clone_session_add_member, World.call, World.invoke, World.calls_since,
        session_for, psabpf_clone_session_entry_init, psabpf_clone_session_entry_port,
        psabpf_clone_session_entry_instance, psabpf_clone_session_entry_cos, hex2]
    · simp [clone_session_add_member, World.call, World.invoke, World.calls_since,
        session_for, hex2]
    · intro h
      simp only [clone_session_add_member, World.call, World.invoke, hex2] at h ⊢
      exact hget w.store ctx _ _ (by simpa using h)

/-- C6 at a concrete input: on the sample store, adding port 5, instance 0 to
session 7 with truncation to 128 bytes stores `truncate = 1`, length 128;
adding the same key again without truncation (the length argument still 128)
stores `truncate = 0`, length 0. -/
theorem clone_session_add_member_truncation_witness :
    SampleStore.get (clone_session_add_member sampleLib ⟨1⟩ 7 5 0 0 true 128
        sampleWorld).2.store 7 5 0 =
      some { egress_port := 5, instance_ := 0, class_of_service := 0, truncate := 1,
             packet_length_bytes := 128 } ∧
    SampleStore.get (clone_session_add_member sampleLib ⟨1⟩ 7 5 0 0 false 128
        (clone_session_add_member sampleLib ⟨1⟩ 7 5 0 0 true 128 sampleWorld).2).2.store 7 5 0 =
      some { egress_port := 5, instance_ := 0, class_of_service := 0, truncate := 0,
             packet_length_bytes := 0 } := by
  have hg : ∀ (s : SampleStore) (ctx : psabpf_context_t)
      (session : psabpf_clone_session_ctx_t) (e : psabpf_clone_session_entry_t),
      (sampleLib.psabpf_clone_session_entry_update s ctx session e).1 = NO_ERROR →
      (fun (s : SampleStore) (session : psabpf_clone_session_ctx_t) p i =>
          s.get session.id p i)
        (sampleLib.psabpf_clone_session_entry_update s ctx session e).2 session
        e.egress_port e.instance_ = some e := by
    intro s ctx session e _
    simp [sampleLib, SampleStore.get, List.find?]
  obtain ⟨e1, he1, _, h1⟩ :=
    (clone_session_add_member_truncation sampleLib
      (fun s session p i => s.get session.id p i) hg ⟨1⟩ 7 5 0 0 128 sampleWorld
      (by decide)).1
  obtain ⟨e2, he2, _, _, h2⟩ :=
    (clone_session_add_member_truncation sampleLib
      (fun s session p i => s.get session.id p i) hg ⟨1⟩ 7 5 0 0 128
      (clone_session_add_member sampleLib ⟨1⟩ 7 5 0 0 true 128 sampleWorld).2
      (by decide)).2
  subst he1 he2
  exact ⟨h1 (by decide), h2 (by decide)⟩

/-- C7: for an existing session the entry that `clone_session_add_member`
passes to `psabpf_clone_session_entry_update` (the only update it issues) has
`egress_port`, `instance` and `class_of_service` equal to the arguments: the
function's result and the store it leaves are those of the primitive applied,
on the store as given, to that entry.  And when the pipeline id and the
keyword table parse and the parser stores nothing through the destination of
the optional `cos` row (the keyword is not given), every run of
`do_clone_session_add_member` that reaches the call hands
`class_of_service = 0` to `clone_session_add_member`. -/
theorem clone_session_add_member_fields {σ : Type} (C : CliLib σ) (L : PreLib σ) :
    (∀ (ctx : psabpf_context_t) (id : psabpf_clone_session_id_t)
        (egress_port instance_ class_of_service : Nat) (truncate : Bool) (len : Nat)
        (w : World σ),
      L.psabpf_clone_session_exists w.store ctx (session_for L id) = true →
      ∃ entry : psabpf_clone_session_entry_t,
        entry.egress_port = egress_port ∧ entry.instance_ = instance_ ∧
        entry.class_of_service = class_of_service ∧
        (clone_session_add_member L ctx id egress_port instance_
            class_of_service truncate len w).1 =
          (L.psabpf_clone_session_entry_update w.store ctx (session_for L id) entry).1 ∧
        (clone_session_add_member L ctx id egress_port instance_
            class_of_service truncate len w).2.store =
          (L.psabpf_clone_session_entry_update w.store ctx (session_for L id) entry).2 ∧
        Call.psabpf_clone_session_entry_update ctx (session_for L id) entry ∈
          w.calls_since (clone_session_add_member L ctx id egress_port instance_
            class_of_service truncate len w).2 ∧
        ∀ c s e, Call.psabpf_clone_session_entry_update c s e ∈
          w.calls_since (clone_session_add_member L ctx id egress_port instance_
            class_of_service truncate len w).2 → e = entry) ∧
    (∀ (argv : List String) (session_id egress_port instance_ plen_bytes : Nat)
        (w : World σ) (truncate : Bool) (plen : Nat)
        (p : Int × List String × psabpf_context_t)
        (k : Int × List String × List (Option Nat)),
      p = C.parse_pipeline_id w.store argv C.psabpf_context_init →
      k = C.parse_keyword_value_pairs p.2.1 add_member_kv →
      p.1 = NO_ERROR → k.1 = NO_ERROR → k.2.2.getD 3 none = none →
      add_member_truncate_block C k.2.1 (store_sized 2 plen_bytes) =
        some (truncate, [], plen, NO_ERROR) →
      do_clone_session_add_member C L argv session_id egress_port instance_ plen_bytes w =
        some
          ((clone_session_add_member L p.2.2
              (kv_dest k.2.2 0 4 (store_sized 4 session_id))
              (kv_dest k.2.2 1 4 (store_sized 4 egress_port))
              (kv_dest k.2.2 2 2 (store_sized 2 instance_))
              0 truncate plen (w.call .psabpf_context_init)).1,
           (clone_session_add_member L p.2.2
              (kv_dest k.2.2 0 4 (store_sized 4 session_id))
              (kv_dest k.2.2 1 4 (store_sized 4 egress_port))
              (kv_dest k.2.2 2 2 (store_sized 2 instance_))
              0 truncate plen (w.call .psabpf_context_init)).2.call
             (.psabpf_context_free p.2.2))) := by
  constructor
  · intro ctx id egress_port instance_ class_of_service truncate len w hex
    have hex2 : L.psabpf_clone_session_exists w.store ctx
        (psabpf_clone_session_id L.psabpf_clone_session_context_init id) = true := hex
    cases truncate with
    | true =>
      refine ⟨{ egress_port := egress_port, instance_ := instance_,
                class_of_service := class_of_service, truncate := 1,
                packet_length_bytes := len }, rfl, rfl, rfl, ?_, ?_, ?_, ?_⟩
      · simp [clone_session_add_member, World.call, World.invoke,
          session_for, psabpf_clone_session_entry_init, psabpf_clone_session_entry_port,
          psabpf_clone_session_entry_instance, psabpf_clone_session_entry_cos,
          psabpf_clone_session_entry_truncate_enable, hex2]
      · simp [clone_session_add_member, World.call, World.invoke,
          session_for, psabpf_clone_session_entry_init, psabpf_clone_session_entry_port,
          psabpf_clone_session_entry_instance, psabpf_clone_session_entry_cos,
          psabpf_clone_session_entry_truncate_enable, hex2]
      · simp [clone_session_add_member, World.call, World.invoke, World.calls_since,
          session_for, psabpf_clone_session_entry_init, psabpf_clone_session_entry_port,
          psabpf_clone_session_entry_instance, psabpf_clone_session_entry_cos,
          psabpf_clone_session_entry_truncate_enable, hex2]
      · intro c s e
        simp [clone_session_add_member, World.call, World.invoke, World.calls_since,
          session_for, psabpf_clone_session_entry_init, psabpf_clone_session_entry_port,
          psabpf_clone_session_entry_instance, psabpf_clone_session_entry_cos,
          psabpf_clone_session_entry_truncate_enable, hex2]
    | false =>
      refine ⟨{ egress_port := egress_port, instance_ := instance_,
                class_of_service := class_of_service, truncate := 0,
                packet_length_bytes := 0 }, rfl, rfl, rfl, ?_, ?_, ?_, ?_⟩
      · simp [clone_session_add_member, World.call, World.invoke,
          session_for, psabpf_clone_session_entry_init, psabpf_clone_session_entry_port,
          psabpf_clone_session_entry_instance, psabpf_clone_session_entry_cos, hex2]
      · simp [clone_session_add_member, World.call, World.invoke,
          session_for, psabpf_clone_session_entry_init, psabpf_clone_session_entry_port,
          psabpf_clone_session_entry_instance, psabpf_clone_session_entry_cos, hex2]
      · simp [clone_session_add_member, World.call, World.invoke, World.calls_since,
          session_for, psabpf_clone_session_entry_init, psabpf_clone_session_entry_port,
          psabpf_clone_session_entry_instance, psabpf_clone_session_entry_cos, hex2]
      · intro c s e
        simp [clone_session_add_member, World.call, World.invoke, World.calls_since,
          session_for, psabpf_clone_session_entry_init, psabpf_clone_session_entry_port,
          psabpf_clone_session_entry_instance, psabpf_clone_session_entry_cos, hex2]
  · intro argv session_id egress_port instance_ plen_bytes w truncate plen p k hpe hke
      hp hk hcos hb
    subst hpe hke
    have hstore : (w.call Call.psabpf_context_init).store = w.store := rfl
    have hc0 : kv_dest (C.parse_keyword_value_pairs
        (C.parse_pipeline_id w.store argv C.psabpf_context_init).2.1 add_member_kv).2.2
        3 1 0 = 0 := by
      unfold kv_dest
      rw [hcos]
    simp only [do_clone_session_add_member, hstore, hp, hk, hb, hc0, ne_eq, not_true_eq_false,
      if_false, List.length_nil, gt_iff_lt, lt_self_iff_false]

/-- C7 at a concrete input: the sample command line
`pipe 1 id 7 egress-port 5 instance 0`, which gives no `cos`, runs
`clone_session_add_member` for session 7, port 5, instance 0 with class of
service 0, whatever the uninitialised locals held; and adding port 5,
instance 0 with class of service 3 to session 7 hands an entry with these
three values to the update, whose result `NO_ERROR` is returned and whose
store, holding that member with class of service 3, is the store left. -/
theorem clone_session_add_member_fields_witness :
    do_clone_session_add_member sampleCli sampleLib
        ["pipe", "1", "id", "7", "egress-port", "5", "instance", "0"] 11 12 13 14
        sampleWorld =
      some
        ((clone_session_add_member sampleLib ⟨1⟩ 7 5 0 0 false 14
            (sampleWorld.call .psabpf_context_init)).1,
         (clone_session_add_member sampleLib ⟨1⟩ 7 5 0 0 false 14
            (sampleWorld.call .psabpf_context_init)).2.call (.psabpf_context_free ⟨1⟩)) ∧
    (∃ entry : psabpf_clone_session_entry_t,
      entry.egress_port = 5 ∧ entry.instance_ = 0 ∧ entry.class_of_service = 3 ∧
      (clone_session_add_member sampleLib ⟨1⟩ 7 5 0 3 true 128 sampleWorld).1 =
        (sampleLib.psabpf_clone_session_entry_update sampleWorld.store ⟨1⟩
          (session_for sampleLib 7) entry).1 ∧
      (clone_session_add_member sampleLib ⟨1⟩ 7 5 0 3 true 128 sampleWorld).2.store =
        (sampleLib.psabpf_clone_session_entry_update sampleWorld.store ⟨1⟩
          (session_for sampleLib 7) entry).2 ∧
      Call.psabpf_clone_session_entry_update ⟨1⟩ (session_for sampleLib 7) entry ∈
        sampleWorld.calls_since
          (clone_session_add_member sampleLib ⟨1⟩ 7 5 0 3 true 128 sampleWorld).2) ∧
    (clone_session_add_member sampleLib ⟨1⟩ 7 5 0 3 true 128 sampleWorld).1 = NO_ERROR ∧
    SampleStore.get (clone_session_add_member sampleLib ⟨1⟩ 7 5 0 3 true 128
        sampleWorld).2.store 7 5 0 =
      some { egress_port := 5, instance_ := 0, class_of_service := 3, truncate := 1,
             packet_length_bytes := 128 } := by
  have h := clone_session_add_member_fields sampleCli sampleLib
  have h2 := h.2
    ["pipe", "1", "id", "7", "egress-port", "5", "instance", "0"] 11 12 13 14 sampleWorld
    false 14 _ _ rfl rfl (by decide) (by decide) (by decide) (by decide)
  obtain ⟨e, h3, h4, h5, h6, h7, h8, _⟩ :=
    h.1 ⟨1⟩ 7 5 0 3 true 128 sampleWorld (by decide)
  exact ⟨h2, ⟨e, h3, h4, h5, h6, h7, h8⟩, by decide, by decide⟩

/-- C8: `psabpf_register_ctx_name` returns `EINVAL` when any of its three
pointer arguments is `NULL` and `ENOTSUP` when `load_btf` fails; when the
metadata loads and the map opens, it returns `NO_ERROR` whenever
`parse_struct_type` succeeds for at least one of the `key` and `value`
sub-structures, and `EOPNOTSUPP` exactly when it fails for both. -/
theorem psabpf_register_ctx_name_results {σ : Type} (R : RegLib σ) (w : World σ) :
    (∀ (psabpf_ctx : Option psabpf_context_t) (ctx : Option psabpf_register_context_t)
        (name : Option String),
      psabpf_ctx = none ∨ ctx = none ∨ name = none →
      (psabpf_register_ctx_name R psabpf_ctx ctx name w).1 = EINVAL) ∧
    (∀ (psabpf_ctx : psabpf_context_t) (ctx : psabpf_register_context_t) (name : String),
      (R.load_btf w.store psabpf_ctx ctx.btf_metadata).1 ≠ NO_ERROR →
      (psabpf_register_ctx_name R (some psabpf_ctx) (some ctx) (some name) w).1 = ENOTSUP) ∧
    (∀ (psabpf_ctx : psabpf_context_t) (ctx : psabpf_register_context_t) (name : String)
        (btf : psabpf_btf_t) (store1 : σ) (reg : psabpf_bpf_map_descriptor_t) (store2 : σ)
        (key_ret value_ret : Int),
      R.load_btf w.store psabpf_ctx ctx.btf_metadata = (NO_ERROR, btf, store1) →
      R.open_bpf_map store1 psabpf_ctx name btf ctx.reg = (NO_ERROR, reg, store2) →
      key_ret = (R.parse_struct_type btf
        (R.psabtf_get_member_type_id_by_name btf.btf reg.btf_type_id "key")
        reg.key_size ctx.key_fds).1 →
      value_ret = (R.parse_struct_type btf
        (R.psabtf_get_member_type_id_by_name btf.btf reg.btf_type_id "value")
        reg.value_size ctx.value_fds).1 →
      ((key_ret = NO_ERROR ∨ value_ret = NO_ERROR) →
        (psabpf_register_ctx_name R (some psabpf_ctx) (some ctx) (some name) w).1
          = NO_ERROR) ∧
      ((psabpf_register_ctx_name R (some psabpf_ctx) (some ctx) (some name) w).1
          = EOPNOTSUPP ↔ (key_ret ≠ NO_ERROR ∧ value_ret ≠ NO_ERROR))) := by
  refine ⟨?_, ?_, ?_⟩
  · intro psabpf_ctx ctx name h
    rcases psabpf_ctx with _ | a <;> rcases ctx with _ | b <;> rcases name with _ | c <;>
      simp [psabpf_register_ctx_name] at h ⊢
  · intro psabpf_ctx ctx name h
    simp [psabpf_register_ctx_name, h]
  · intro psabpf_ctx ctx name btf store1 reg store2 key_ret value_ret hl ho hk hv
    subst hk hv
    by_cases h1 : (R.parse_struct_type btf
        (R.psabtf_get_member_type_id_by_name btf.btf reg.btf_type_id "key")
        reg.key_size ctx.key_fds).1 = NO_ERROR
    · simp [psabpf_register_ctx_name, fill_key_btf_info, World.call, hl, ho, h1,
        NO_ERROR, EOPNOTSUPP]
    · by_cases h2 : (R.parse_struct_type btf
          (R.psabtf_get_member_type_id_by_name btf.btf reg.btf_type_id "value")
          reg.value_size ctx.value_fds).1 = NO_ERROR
      · simp [psabpf_register_ctx_name, fill_key_btf_info, fill_value_btf_info, World.call,
          hl, ho, h1, h2]
        simp [NO_ERROR, EOPNOTSUPP]
      · simp [psabpf_register_ctx_name, fill_key_btf_info, fill_value_btf_info, World.call,
          hl, ho, h1, h2]

/-- C8 at concrete inputs: a `NULL` name gives `EINVAL`; without metadata
the result is `ENOTSUP`; with neither layout parsing it is `EOPNOTSUPP`; with
only the value layout parsing it is `NO_ERROR`. -/
theorem psabpf_register_ctx_name_results_witness :
    (psabpf_register_ctx_name (sampleReg true none none) (some ⟨1⟩)
      (some psabpf_register_ctx_init) none sampleRegWorld).1 = EINVAL ∧
    (psabpf_register_ctx_name (sampleReg false none none) (some ⟨1⟩)
      (some psabpf_register_ctx_init) (some "reg") sampleRegWorld).1 = ENOTSUP ∧
    (psabpf_register_ctx_name (sampleReg true none none) (some ⟨1⟩)
      (some psabpf_register_ctx_init) (some "reg") sampleRegWorld).1 = EOPNOTSUPP ∧
    (psabpf_register_ctx_name (sampleReg true none (some sampleValueLayout)) (some ⟨1⟩)
      (some psabpf_register_ctx_init) (some "reg") sampleRegWorld).1 = NO_ERROR :=
  ⟨(psabpf_register_ctx_name_results (sampleReg true none none) sampleRegWorld).1
      (some ⟨1⟩) (some psabpf_register_ctx_init) none (Or.inr (Or.inr rfl)),
   (psabpf_register_ctx_name_results (sampleReg false none none) sampleRegWorld).2.1
      ⟨1⟩ psabpf_register_ctx_init "reg" (by decide),
   ((psabpf_register_ctx_name_results (sampleReg true none none) sampleRegWorld).2.2
      ⟨1⟩ psabpf_register_ctx_init "reg" _ _ _ _ _ _ rfl rfl rfl rfl).2.mpr
      ⟨by decide, by decide⟩,
   ((psabpf_register_ctx_name_results (sampleReg true none (some sampleValueLayout))
      sampleRegWorld).2.2
      ⟨1⟩ psabpf_register_ctx_init "reg" _ _ _ _ _ _ rfl rfl rfl rfl).1
      (Or.inr (by decide))⟩

/-- C9: when `psabpf_register_ctx_name` fails because the layout is
unsupported, no map handle is left open in the context: if `load_btf` fails
the result is `ENOTSUP`, `open_bpf_map` is never called and the map
descriptor of the context is untouched; if the metadata loads, the map opens
and `parse_struct_type` fails for both sub-structures, the result is
`EOPNOTSUPP` and the last call made is `close_object_fd` on the descriptor
that `open_bpf_map` put in `ctx->reg.fd`, whose outcome is what the context
and the store hold on return. -/
theorem psabpf_register_ctx_name_leaves_no_map_open {σ : Type} (R : RegLib σ)
    (psabpf_ctx : psabpf_context_t) (ctx : psabpf_register_context_t) (name : String)
    (w : World σ) :
    ((R.load_btf w.store psabpf_ctx ctx.btf_metadata).1 ≠ NO_ERROR →
      (psabpf_register_ctx_name R (some psabpf_ctx) (some ctx) (some name) w).1 = ENOTSUP ∧
      w.calls_since (psabpf_register_ctx_name R (some psabpf_ctx) (some ctx) (some name) w).2.2
        = [.load_btf psabpf_ctx] ∧
      (∀ c n, Call.open_bpf_map c n ∉
        w.calls_since
          (psabpf_register_ctx_name R (some psabpf_ctx) (some ctx) (some name) w).2.2) ∧
      ∃ ctx1, (psabpf_register_ctx_name R (some psabpf_ctx) (some ctx) (some name) w).2.1
          = some ctx1 ∧ ctx1.reg = ctx.reg) ∧
    (∀ (btf : psabpf_btf_t) (store1 : σ) (reg : psabpf_bpf_map_descriptor_t) (store2 : σ),
      R.load_btf w.store psabpf_ctx ctx.btf_metadata = (NO_ERROR, btf, store1) →
      R.open_bpf_map store1 psabpf_ctx name btf ctx.reg = (NO_ERROR, reg, store2) →
      (R.parse_struct_type btf
        (R.psabtf_get_member_type_id_by_name btf.btf reg.btf_type_id "key")
        reg.key_size ctx.key_fds).1 ≠ NO_ERROR →
      (R.parse_struct_type btf
        (R.psabtf_get_member_type_id_by_name btf.btf reg.btf_type_id "value")
        reg.value_size ctx.value_fds).1 ≠ NO_ERROR →
      (psabpf_register_ctx_name R (some psabpf_ctx) (some ctx) (some name) w).1
        = EOPNOTSUPP ∧
      w.calls_since (psabpf_register_ctx_name R (some psabpf_ctx) (some ctx) (some name) w).2.2
        = [.load_btf psabpf_ctx, .open_bpf_map psabpf_ctx name,
           .psabtf_get_member_type_id_by_name btf.btf reg.btf_type_id "key",
           .parse_struct_type
             (R.psabtf_get_member_type_id_by_name btf.btf reg.btf_type_id "key") reg.key_size,
           .psabtf_get_member_type_id_by_name btf.btf reg.btf_type_id "value",
           .parse_struct_type
             (R.psabtf_get_member_type_id_by_name btf.btf reg.btf_type_id "value")
             reg.value_size,
           .close_object_fd reg.fd] ∧
      (psabpf_register_ctx_name R (some psabpf_ctx) (some ctx) (some name) w).2.2.store
        = (R.close_object_fd store2 reg.fd).2 ∧
      ∃ ctx1, (psabpf_register_ctx_name R (some psabpf_ctx) (some ctx) (some name) w).2.1
          = some ctx1 ∧ ctx1.reg.fd = (R.close_object_fd store2 reg.fd).1) := by
  constructor
  · intro h
    simp [psabpf_register_ctx_name, World.calls_since, h]
  · intro btf store1 reg store2 hl ho h1 h2
    simp [psabpf_register_ctx_name, fill_key_btf_info, fill_value_btf_info, World.call,
      World.calls_since, hl, ho, h1, h2]

/-- C9 at concrete inputs: without metadata the map is never opened and no
descriptor is open afterwards; with neither layout parsing, descriptor 3 is
opened and closed again, so the store holds no open descriptor and the
context holds -1. -/
theorem psabpf_register_ctx_name_leaves_no_map_open_witness :
    (psabpf_register_ctx_name (sampleReg false none none) (some ⟨1⟩)
      (some psabpf_register_ctx_init) (some "reg") sampleRegWorld).2.2.store = [] ∧
    (psabpf_register_ctx_name (sampleReg true none none) (some ⟨1⟩)
      (some psabpf_register_ctx_init) (some "reg") sampleRegWorld).2.2.store = [] ∧
    ((psabpf_register_ctx_name (sampleReg true none none) (some ⟨1⟩)
      (some psabpf_register_ctx_init) (some "reg") sampleRegWorld).2.1.map
        (fun c => c.reg.fd)) = some (-1) := by
  have h1 := (psabpf_register_ctx_name_leaves_no_map_open (sampleReg false none none)
    ⟨1⟩ psabpf_register_ctx_init "reg" sampleRegWorld).1 (by decide)
  have h2 := (psabpf_register_ctx_name_leaves_no_map_open (sampleReg true none none)
    ⟨1⟩ psabpf_register_ctx_init "reg" sampleRegWorld).2 _ _ _ _ rfl rfl
    (by decide) (by decide)
  obtain ⟨_, _, h3, c1, h4, h5⟩ := h2
  refine ⟨by decide, ?_, ?_⟩
  · rw [h3]; decide
  · rw [h4, Option.map_some', h5]; decide

/-- C10, what the code does where the claim fails.  Whenever the metadata
loads, the map opens and the key layout parses, `psabpf_register_ctx_name`
returns `NO_ERROR` after the key parse, without calling `parse_struct_type`
for the value: the value descriptor set of the context is left as it was.  At
the failing input, a register whose key layout (one member) and value layout
(two members) both parse, bound on a freshly initialised context, the value
descriptor set stays empty, and after a successful `psabpf_register_get` the
first `psabpf_register_get_next_field` returns `NULL`: the iteration yields
no field although the value has two members. -/
theorem psabpf_register_ctx_name_skips_value_layout :
    (∀ (σ : Type) (R : RegLib σ) (psabpf_ctx : psabpf_context_t)
        (ctx : psabpf_register_context_t) (name : String) (w : World σ)
        (btf : psabpf_btf_t) (store1 : σ) (reg : psabpf_bpf_map_descriptor_t) (store2 : σ),
      R.load_btf w.store psabpf_ctx ctx.btf_metadata = (NO_ERROR, btf, store1) →
      R.open_bpf_map store1 psabpf_ctx name btf ctx.reg = (NO_ERROR, reg, store2) →
      (R.parse_struct_type btf
        (R.psabtf_get_member_type_id_by_name btf.btf reg.btf_type_id "key")
        reg.key_size ctx.key_fds).1 = NO_ERROR →
      (psabpf_register_ctx_name R (some psabpf_ctx) (some ctx) (some name) w).1 = NO_ERROR ∧
      w.calls_since (psabpf_register_ctx_name R (some psabpf_ctx) (some ctx) (some name) w).2.2
        = [.load_btf psabpf_ctx, .open_bpf_map psabpf_ctx name,
           .psabtf_get_member_type_id_by_name btf.btf reg.btf_type_id "key",
           .parse_struct_type
             (R.psabtf_get_member_type_id_by_name btf.btf reg.btf_type_id "key")
             reg.key_size] ∧
      ∃ ctx1, (psabpf_register_ctx_name R (some psabpf_ctx) (some ctx) (some name) w).2.1
          = some ctx1 ∧ ctx1.value_fds = ctx.value_fds) ∧
    ((sampleReg true (some sampleKeyLayout) (some sampleValueLayout)).parse_struct_type
      ⟨1⟩ 12 8 [] = (NO_ERROR, sampleValueLayout) ∧
    (psabpf_register_ctx_name (sampleReg true (some sampleKeyLayout) (some sampleValueLayout))
      (some ⟨1⟩) (some psabpf_register_ctx_init) (some "reg") sampleRegWorld).1 = NO_ERROR ∧
    ∃ ctx1,
      (psabpf_register_ctx_name (sampleReg true (some sampleKeyLayout) (some sampleValueLayout))
        (some ⟨1⟩) (some psabpf_register_ctx_init) (some "reg") sampleRegWorld).2.1
        = some ctx1 ∧
      ctx1.key_fds = sampleKeyLayout ∧
      ctx1.value_fds = [] ∧
      (psabpf_register_get (sampleReg true (some sampleKeyLayout) (some sampleValueLayout)) ctx1
        { psabpf_register_entry_init with entry_key := [[0, 0, 0, 0]] }
        (psabpf_register_ctx_name
          (sampleReg true (some sampleKeyLayout) (some sampleValueLayout))
          (some ⟨1⟩) (some psabpf_register_ctx_init) (some "reg") sampleRegWorld).2.2).1
        = NO_ERROR ∧
      (psabpf_register_get_next_field (some ctx1)
        (some (psabpf_register_get
          (sampleReg true (some sampleKeyLayout) (some sampleValueLayout)) ctx1
          { psabpf_register_entry_init with entry_key := [[0, 0, 0, 0]] }
          (psabpf_register_ctx_name
            (sampleReg true (some sampleKeyLayout) (some sampleValueLayout))
            (some ⟨1⟩) (some psabpf_register_ctx_init) (some "reg") sampleRegWorld).2.2).2.1)).1
        = none ∧
      register_fields ctx1 2
        (psabpf_register_get
          (sampleReg true (some sampleKeyLayout) (some sampleValueLayout)) ctx1
          { psabpf_register_entry_init with entry_key := [[0, 0, 0, 0]] }
          (psabpf_register_ctx_name
            (sampleReg true (some sampleKeyLayout) (some sampleValueLayout))
            (some ⟨1⟩) (some psabpf_register_ctx_init) (some "reg") sampleRegWorld).2.2).2.1
        = []) := by
  constructor
  · intro σ R psabpf_ctx ctx name w btf store1 reg store2 hl ho hk
    simp [psabpf_register_ctx_name, fill_key_btf_info, World.call, World.calls_since,
      hl, ho, hk]
  · exact ⟨by decide, by decide, _, rfl, by decide, by decide, by decide, by decide,
      by decide⟩

/-- A call at a cursor that addresses a descriptor returns the view of that
descriptor and advances the cursor by one. -/
theorem next_field_at_descriptor (ctx : psabpf_register_context_t)
    (entry : psabpf_register_entry_t) (fd : psabpf_struct_field_descriptor_t)
    (h : ctx.value_fds.get? entry.current_field_id = some fd) :
    psabpf_register_get_next_field (some ctx) (some entry) =
      (some (descriptor_view entry.raw_value fd),
       some { entry with current := descriptor_view entry.raw_value fd,
                         current_field_id := entry.current_field_id + 1 }) := by
  simp only [psabpf_register_get_next_field, get_struct_field_descriptor, h, descriptor_view]

/-- A call at a cursor past the descriptors returns `NULL` and resets the
cursor. -/
theorem next_field_at_end (ctx : psabpf_register_context_t)
    (entry : psabpf_register_entry_t)
    (h : ctx.value_fds.get? entry.current_field_id = none) :
    psabpf_register_get_next_field (some ctx) (some entry) =
      (none, some { entry with current_field_id := 0 }) := by
  simp only [psabpf_register_get_next_field, get_struct_field_descriptor, h]

/-- After `j` calls from cursor 0, with `j` at most the descriptor count, the
cursor is `j` and the raw value is the one the entry started with. -/
theorem register_after_calls_cursor (ctx : psabpf_register_context_t)
    (entry : psabpf_register_entry_t) (h0 : entry.current_field_id = 0) :
    ∀ j, j ≤ ctx.value_fds.length →
      (register_after_calls ctx j entry).current_field_id = j ∧
      (register_after_calls ctx j entry).raw_value = entry.raw_value := by
  intro j
  induction j with
  | zero => intro _; exact ⟨h0, rfl⟩
  | succ j ih =>
    intro hj
    obtain ⟨hc, hr⟩ := ih (Nat.le_of_succ_le hj)
    have hlt : j < ctx.value_fds.length := hj
    have hget : ctx.value_fds.get? (register_after_calls ctx j entry).current_field_id
        = some (ctx.value_fds.get ⟨j, hlt⟩) := by
      rw [hc]; exact List.get?_eq_get hlt
    simp only [register_after_calls, register_step, next_field_at_descriptor ctx _ _ hget]
    exact ⟨by simp [hc], hr⟩

/-- From a cursor `c`, enough calls yield the views of the descriptors from
`c` on, in order. -/
theorem register_fields_from (ctx : psabpf_register_context_t) :
    ∀ (fuel : Nat) (entry : psabpf_register_entry_t),
      ctx.value_fds.length - entry.current_field_id < fuel →
      register_fields ctx fuel entry =
        (ctx.value_fds.drop entry.current_field_id).map (descriptor_view entry.raw_value) := by
  intro fuel
  induction fuel with
  | zero => intro entry h; omega
  | succ fuel ih =>
    intro entry h
    by_cases hlt : entry.current_field_id < ctx.value_fds.length
    · have hget : ctx.value_fds.get? entry.current_field_id
          = some (ctx.value_fds.get ⟨entry.current_field_id, hlt⟩) := List.get?_eq_get hlt
      simp only [register_fields, next_field_at_descriptor ctx _ _ hget]
      rw [ih _ (by simp only []; omega)]
      rw [List.drop_eq_getElem_cons hlt]
      rfl
    · have hget : ctx.value_fds.get? entry.current_field_id = none :=
        List.get?_eq_none.mpr (Nat.le_of_not_lt hlt)
      simp only [register_fields, next_field_at_end ctx _ hget]
      rw [List.drop_eq_nil_of_le (Nat.le_of_not_lt hlt)]
      rfl
/-- C11: on an entry whose cursor is 0, over a context whose value descriptor
set has `n` descriptors, the call number `j + 1` (for `j < n`), made on the
entry as `j` calls left it, returns a view whose name, type and data length
are those of descriptor `j` and whose data points into the entry's raw value
at that descriptor's offset, and moves the cursor from `j` to `j + 1`; the
call number `n + 1` returns `NULL`.  The fields yielded before the `NULL` are
the views of the descriptors, in descriptor order, each once. -/
theorem psabpf_register_get_next_field_enumerates (ctx : psabpf_register_context_t)
    (entry : psabpf_register_entry_t) (h0 : entry.current_field_id = 0) :
    (∀ (j : Nat) (hj : j < ctx.value_fds.length),
      ∃ field entry1,
        psabpf_register_get_next_field (some ctx) (some (register_after_calls ctx j entry))
          = (some field, some entry1) ∧
        field.name = (ctx.value_fds.get ⟨j, hj⟩).name ∧
        field.type = (ctx.value_fds.get ⟨j, hj⟩).type ∧
        field.data_len = (ctx.value_fds.get ⟨j, hj⟩).data_len ∧
        field.data = { base := entry.raw_value,
                       offset := (ctx.value_fds.get ⟨j, hj⟩).data_offset } ∧
        (register_after_calls ctx j entry).current_field_id = j ∧
        entry1.current_field_id = j + 1 ∧
        entry1 = register_after_calls ctx (j + 1) entry) ∧
    (psabpf_register_get_next_field (some ctx)
      (some (register_after_calls ctx ctx.value_fds.length entry))).1 = none ∧
    register_fields ctx (ctx.value_fds.length + 1) entry =
      ctx.value_fds.map (descriptor_view entry.raw_value) := by
  refine ⟨?_, ?_, ?_⟩
  · intro j hj
    obtain ⟨hc, hr⟩ := register_after_calls_cursor ctx entry h0 j (Nat.le_of_lt hj)
    have hget : ctx.value_fds.get? (register_after_calls ctx j entry).current_field_id
        = some (ctx.value_fds.get ⟨j, hj⟩) := by
      rw [hc]; exact List.get?_eq_get hj
    refine ⟨_, _, next_field_at_descriptor ctx _ _ hget, rfl, rfl, rfl, ?_, hc, ?_, ?_⟩
    · simp [descriptor_view, hr]
    · simp [hc]
    · simp only [register_after_calls, register_step, next_field_at_descriptor ctx _ _ hget]
  · obtain ⟨hc, _⟩ := register_after_calls_cursor ctx entry h0 ctx.value_fds.length
      (Nat.le_refl _)
    have hget : ctx.value_fds.get? (register_after_calls ctx ctx.value_fds.length
        entry).current_field_id = none := by
      rw [hc]; exact List.get?_eq_none.mpr (Nat.le_refl _)
    rw [next_field_at_end ctx _ hget]
  · have h := register_fields_from ctx (ctx.value_fds.length + 1) entry (by omega)
    rw [h, h0, List.drop_zero]

/-- C11 at a concrete input: over the two-member value layout and the raw
value `[1, 2, 3, 4, 5, 6, 7, 8]`, the calls yield `packets` at offset 0 and
`bytes` at offset 4, and nothing more. -/
theorem psabpf_register_get_next_field_enumerates_witness :
    register_fields { psabpf_register_ctx_init with value_fds := sampleValueLayout } 3
        { psabpf_register_entry_init with raw_value := some [1, 2, 3, 4, 5, 6, 7, 8] } =
      [ { type := 1, data_len := 4, name := "packets",
          data := { base := some [1, 2, 3, 4, 5, 6, 7, 8], offset := 0 } },
        { type := 1, data_len := 4, name := "bytes",
          data := { base := some [1, 2, 3, 4, 5, 6, 7, 8], offset := 4 } } ] :=
  (psabpf_register_get_next_field_enumerates
    { psabpf_register_ctx_init with value_fds := sampleValueLayout }
    { psabpf_register_entry_init with raw_value := some [1, 2, 3, 4, 5, 6, 7, 8] } rfl).2.2

/-- C12: a call that returns `NULL` on a non-`NULL` context and entry leaves
the cursor at 0 and the raw value as it was; so after the `n + 1` calls of a
complete pass from cursor 0 the cursor is 0 again, and a second pass over the
same context yields exactly the fields of the first, all `n` of them.  With
a `NULL` context or a `NULL` entry the call returns `NULL` and the entry is
returned as it was given. -/
theorem psabpf_register_get_next_field_restartable (ctx : psabpf_register_context_t) :
    (∀ entry : psabpf_register_entry_t,
      (psabpf_register_get_next_field (some ctx) (some entry)).1 = none →
      (psabpf_register_get_next_field (some ctx) (some entry)).2 =
        some { entry with current_field_id := 0 }) ∧
    (∀ entry : psabpf_register_entry_t, entry.current_field_id = 0 →
      (register_after_calls ctx (ctx.value_fds.length + 1) entry).current_field_id = 0 ∧
      (register_after_calls ctx (ctx.value_fds.length + 1) entry).raw_value
        = entry.raw_value ∧
      (register_fields ctx (ctx.value_fds.length + 1) entry).length = ctx.value_fds.length ∧
      register_fields ctx (ctx.value_fds.length + 1)
          (register_after_calls ctx (ctx.value_fds.length + 1) entry) =
        register_fields ctx (ctx.value_fds.length + 1) entry) ∧
    (∀ entry : Option psabpf_register_entry_t,
      psabpf_register_get_next_field none entry = (none, entry)) ∧
    (∀ ctx1 : Option psabpf_register_context_t,
      psabpf_register_get_next_field ctx1 none = (none, none)) := by
  refine ⟨?_, ?_, ?_, ?_⟩
  · intro entry h
    cases hg : ctx.value_fds.get? entry.current_field_id with
    | none => rw [next_field_at_end ctx entry hg]
    | some fd => rw [next_field_at_descriptor ctx entry fd hg] at h; cases h
  · intro entry h0
    obtain ⟨hc, hr⟩ := register_after_calls_cursor ctx entry h0 ctx.value_fds.length
      (Nat.le_refl _)
    have hget : ctx.value_fds.get? (register_after_calls ctx ctx.value_fds.length
        entry).current_field_id = none := by
      rw [hc]; exact List.get?_eq_none.mpr (Nat.le_refl _)
    have hlast : register_after_calls ctx (ctx.value_fds.length + 1) entry =
        { register_after_calls ctx ctx.value_fds.length entry with current_field_id := 0 } := by
      simp only [register_after_calls, register_step, next_field_at_end ctx _ hget]
    have h1 := register_fields_from ctx (ctx.value_fds.length + 1) entry (by omega)
    have h2 := register_fields_from ctx (ctx.value_fds.length + 1)
      (register_after_calls ctx (ctx.value_fds.length + 1) entry) (by rw [hlast]; simp)
    refine ⟨by rw [hlast], by rw [hlast]; exact hr, ?_, ?_⟩
    · rw [h1, h0]; simp
    · rw [h2, h1, hlast, h0]
      simp only [hr]
  · intro entry
    cases entry <;> rfl
  · intro ctx1
    cases ctx1 <;> rfl

/-- C12 at a concrete input: over the two-member value layout, three calls
from cursor 0 leave the cursor at 0, and the pass made from there yields the
same two fields as the first pass. -/
theorem psabpf_register_get_next_field_restartable_witness :
    (register_after_calls { psabpf_register_ctx_init with value_fds := sampleValueLayout } 3
      { psabpf_register_entry_init with raw_value := some [1, 2, 3, 4, 5, 6, 7, 8] }
      ).current_field_id = 0 ∧
    (register_fields { psabpf_register_ctx_init with value_fds := sampleValueLayout } 3
      { psabpf_register_entry_init with raw_value := some [1, 2, 3, 4, 5, 6, 7, 8] }).length
      = 2 ∧
    register_fields { psabpf_register_ctx_init with value_fds := sampleValueLayout } 3
        (register_after_calls { psabpf_register_ctx_init with value_fds := sampleValueLayout } 3
          { psabpf_register_entry_init with raw_value := some [1, 2, 3, 4, 5, 6, 7, 8] }) =
      register_fields { psabpf_register_ctx_init with value_fds := sampleValueLayout } 3
        { psabpf_register_entry_init with raw_value := some [1, 2, 3, 4, 5, 6, 7, 8] } :=
  have h := (psabpf_register_get_next_field_restartable
    { psabpf_register_ctx_init with value_fds := sampleValueLayout }).2.1
    { psabpf_register_entry_init with raw_value := some [1, 2, 3, 4, 5, 6, 7, 8] } rfl
  ⟨h.1, h.2.2.1, h.2.2.2⟩

/-- C13: `psabpf_register_get` returns `ENOMEM` when the key buffer is
missing and cannot be allocated, the packing result when packing the key
fails, `ENOMEM` when the value buffer is missing and cannot be allocated, and
the `errno` of the lookup, unchanged, when `bpf_map_lookup_elem` fails; it
returns `NO_ERROR` when the lookup succeeds.  Provided a failed lookup leaves
a non-zero `errno`, it returns `NO_ERROR` only when both buffers were
available, the key was packed and the lookup succeeded. -/
theorem psabpf_register_get_results {σ : Type} (R : RegLib σ)
    (ctx : psabpf_register_context_t) (entry : psabpf_register_entry_t) (w : World σ) :
    ((allocate_key_buffer R ctx entry w).1 = none ↔
      entry.raw_key = none ∧ (R.malloc w.store ctx.reg.key_size).1 = none) ∧
    ((allocate_key_buffer R ctx entry w).1 = none →
      (psabpf_register_get R ctx entry w).1 = ENOMEM) ∧
    (∀ (raw_key : List Nat) (c : Int × List Nat),
      (allocate_key_buffer R ctx entry w).1 = some raw_key →
      c = R.construct_struct_from_fields (allocate_key_buffer R ctx entry w).2.1.entry_key
        ctx.key_fds raw_key ctx.reg.key_size →
      (c.1 ≠ NO_ERROR → (psabpf_register_get R ctx entry w).1 = c.1) ∧
      (c.1 = NO_ERROR →
        ∀ v : Option (List Nat) × psabpf_register_entry_t × World σ,
          v = allocate_value_buffer R ctx
            { (allocate_key_buffer R ctx entry w).2.1 with raw_key := some c.2 }
            ((allocate_key_buffer R ctx entry w).2.2.call
              (.construct_struct_from_fields ctx.reg.key_size)) →
          (v.1 = none ↔ entry.raw_value = none ∧
            (R.malloc (allocate_key_buffer R ctx entry w).2.2.store ctx.reg.value_size).1
              = none) ∧
          (v.1 = none → (psabpf_register_get R ctx entry w).1 = ENOMEM) ∧
          (∀ (raw_value : List Nat) (l : Int × Int × List Nat),
            v.1 = some raw_value →
            l = R.bpf_map_lookup_elem v.2.2.store ctx.reg.fd c.2 raw_value →
            (l.1 ≠ 0 → (psabpf_register_get R ctx entry w).1 = l.2.1) ∧
            (l.1 = 0 → (psabpf_register_get R ctx entry w).1 = NO_ERROR)))) ∧
    ((∀ s fd key value, (R.bpf_map_lookup_elem s fd key value).1 ≠ 0 →
        (R.bpf_map_lookup_elem s fd key value).2.1 ≠ 0) →
      (psabpf_register_get R ctx entry w).1 = NO_ERROR →
      ∃ (raw_key : List Nat) (c : Int × List Nat)
        (v : Option (List Nat) × psabpf_register_entry_t × World σ)
        (raw_value : List Nat) (l : Int × Int × List Nat),
        (allocate_key_buffer R ctx entry w).1 = some raw_key ∧
        c = R.construct_struct_from_fields (allocate_key_buffer R ctx entry w).2.1.entry_key
          ctx.key_fds raw_key ctx.reg.key_size ∧
        c.1 = NO_ERROR ∧
        v = allocate_value_buffer R ctx
          { (allocate_key_buffer R ctx entry w).2.1 with raw_key := some c.2 }
          ((allocate_key_buffer R ctx entry w).2.2.call
            (.construct_struct_from_fields ctx.reg.key_size)) ∧
        v.1 = some raw_value ∧
        l = R.bpf_map_lookup_elem v.2.2.store ctx.reg.fd c.2 raw_value ∧
        l.1 = 0) := by
  refine ⟨?_, ?_, ?_, ?_⟩
  · cases hk : entry.raw_key <;> simp [allocate_key_buffer, World.invoke, hk]
  · intro h
    simp [psabpf_register_get, h]
  · intro raw_key c ha hc
    subst hc
    refine ⟨?_, ?_⟩
    · intro h
      simp [psabpf_register_get, ha, h]
    · intro h v hv
      subst hv
      refine ⟨?_, ?_, ?_⟩
      · cases hr : entry.raw_value <;> cases hk : entry.raw_key <;>
          simp [allocate_value_buffer, allocate_key_buffer, World.invoke, World.call, hr, hk]
      · intro hn
        simp [psabpf_register_get, ha, h, hn]
      · intro raw_value l hs hl
        subst hl
        simp only [World.call] at hs
        refine ⟨?_, ?_⟩
        · intro h0
          simp only [World.call] at h0
          simp [psabpf_register_get, ha, h, hs, h0, World.call]
        · intro h0
          simp only [World.call] at h0
          simp [psabpf_register_get, ha, h, hs, h0, World.call]
  · intro herr hret
    simp only [psabpf_register_get] at hret
    split at hret
    · simp [ENOMEM, NO_ERROR] at hret
    · rename_i raw_key ha
      split at hret
      · rename_i hc
        exact absurd hret hc
      · rename_i hc
        split at hret
        · simp [ENOMEM, NO_ERROR] at hret
        · rename_i raw_value hv
          split at hret
          · rename_i hl
            exact absurd hret (herr _ _ _ _ hl)
          · rename_i hl
            exact ⟨raw_key, _, _, raw_value, _, ha, rfl, not_not.mp hc, rfl, hv, rfl,
              not_not.mp hl⟩
/-- C13 at concrete inputs: with an allocator that fails the result is
`ENOMEM`; with descriptor 3 not open the lookup fails and its `errno`, 9, is
the result; with descriptor 3 open the result is `NO_ERROR`. -/
theorem psabpf_register_get_results_witness :
    (psabpf_register_get sampleRegNoMemory sampleRegCtx sampleRegEntry
      sampleRegOpenWorld).1 = ENOMEM ∧
    (psabpf_register_get (sampleReg true (some sampleKeyLayout) (some sampleValueLayout))
      sampleRegCtx sampleRegEntry sampleRegWorld).1 = 9 ∧
    (psabpf_register_get (sampleReg true (some sampleKeyLayout) (some sampleValueLayout))
      sampleRegCtx sampleRegEntry sampleRegOpenWorld).1 = NO_ERROR :=
  ⟨(psabpf_register_get_results sampleRegNoMemory sampleRegCtx sampleRegEntry
      sampleRegOpenWorld).2.1 (by decide),
   (((((psabpf_register_get_results
      (sampleReg true (some sampleKeyLayout) (some sampleValueLayout))
      sampleRegCtx sampleRegEntry sampleRegWorld).2.2.1 _ _ rfl rfl).2 (by decide) _ rfl).2.2
      _ _ rfl rfl).1 (by decide)),
   (((((psabpf_register_get_results
      (sampleReg true (some sampleKeyLayout) (some sampleValueLayout))
      sampleRegCtx sampleRegEntry sampleRegOpenWorld).2.2.1 _ _ rfl rfl).2 (by decide) _ rfl).2.2
      _ _ rfl rfl).2 (by decide))⟩

/-- C14: for every context and entry, `NULL` included, `psabpf_register_set`
and `psabpf_register_reset` return `NO_ERROR` and change nothing: the context
and the entry (raw key and raw value buffers included) come back as given,
the store is as it was, and no library call is made. -/
theorem psabpf_register_set_reset_no_effect {σ : Type}
    (ctx : Option psabpf_register_context_t) (entry : Option psabpf_register_entry_t)
    (w : World σ) :
    (psabpf_register_set ctx entry w).1 = NO_ERROR ∧
    (psabpf_register_set ctx entry w).2.1 = ctx ∧
    (psabpf_register_set ctx entry w).2.2.1 = entry ∧
    (psabpf_register_set ctx entry w).2.2.2.store = w.store ∧
    w.calls_since (psabpf_register_set ctx entry w).2.2.2 = [] ∧
    (psabpf_register_reset ctx entry w).1 = NO_ERROR ∧
    (psabpf_register_reset ctx entry w).2.1 = ctx ∧
    (psabpf_register_reset ctx entry w).2.2.1 = entry ∧
    (psabpf_register_reset ctx entry w).2.2.2.store = w.store ∧
    w.calls_since (psabpf_register_reset ctx entry w).2.2.2 = [] := by
  simp [psabpf_register_set, psabpf_register_reset, World.calls_since]

/-- C15: `psabpf_register_get` makes at most one `bpf_map_lookup_elem` call,
and any such call is the last call of the run, made after a
`construct_struct_from_fields` that returned `NO_ERROR`; when packing the key
fails, the packing result is returned unchanged, no lookup is made, and
nothing is allocated after the packing call: the call log ends with it and
the value buffer and the store are as the key allocation left them. -/
theorem psabpf_register_get_single_lookup {σ : Type} (R : RegLib σ)
    (ctx : psabpf_register_context_t) (entry : psabpf_register_entry_t) (w : World σ) :
    ((w.calls_since (psabpf_register_get R ctx entry w).2.2).filter
      Call.is_bpf_map_lookup_elem).length ≤ 1 ∧
    (∀ fd key, Call.bpf_map_lookup_elem fd key ∈
        w.calls_since (psabpf_register_get R ctx entry w).2.2 →
      ∃ raw_key pre post,
        (allocate_key_buffer R ctx entry w).1 = some raw_key ∧
        (R.construct_struct_from_fields (allocate_key_buffer R ctx entry w).2.1.entry_key
          ctx.key_fds raw_key ctx.reg.key_size).1 = NO_ERROR ∧
        w.calls_since (psabpf_register_get R ctx entry w).2.2 =
          pre ++ [Call.construct_struct_from_fields ctx.reg.key_size] ++ post ++
            [Call.bpf_map_lookup_elem fd key]) ∧
    (∀ (raw_key : List Nat) (c : Int × List Nat),
      (allocate_key_buffer R ctx entry w).1 = some raw_key →
      c = R.construct_struct_from_fields (allocate_key_buffer R ctx entry w).2.1.entry_key
        ctx.key_fds raw_key ctx.reg.key_size →
      c.1 ≠ NO_ERROR →
      (psabpf_register_get R ctx entry w).1 = c.1 ∧
      (∀ fd key, Call.bpf_map_lookup_elem fd key ∉
        w.calls_since (psabpf_register_get R ctx entry w).2.2) ∧
      w.calls_since (psabpf_register_get R ctx entry w).2.2 =
        (if entry.raw_key = none then [Call.malloc ctx.reg.key_size] else []) ++
          [Call.construct_struct_from_fields ctx.reg.key_size] ∧
      (psabpf_register_get R ctx entry w).2.1.raw_value = entry.raw_value ∧
      (psabpf_register_get R ctx entry w).2.2.store
        = (allocate_key_buffer R ctx entry w).2.2.store) := by
  refine ⟨?_, ?_, ?_⟩
  · simp only [psabpf_register_get, allocate_key_buffer, allocate_value_buffer, World.invoke,
      World.call, World.calls_since]
    repeat' split
    all_goals simp [Call.is_bpf_map_lookup_elem, List.filter]
  · intro fd key hmem
    cases hk : entry.raw_key with
    | none =>
      cases hm : (R.malloc w.store ctx.reg.key_size).1 with
      | none =>
        simp [psabpf_register_get, allocate_key_buffer, World.invoke, World.calls_since,
          hk, hm] at hmem
      | some rk =>
        by_cases hc : (R.construct_struct_from_fields entry.entry_key ctx.key_fds rk
            ctx.reg.key_size).1 = NO_ERROR
        · refine ⟨rk, [Call.malloc ctx.reg.key_size], ?_⟩
          cases hr : entry.raw_value with
          | none =>
            cases hm2 : (R.malloc (R.malloc w.store ctx.reg.key_size).2 ctx.reg.value_size).1 with
            | none =>
              simp [psabpf_register_get, allocate_key_buffer, allocate_value_buffer,
                World.invoke, World.call, World.calls_since, hk, hm, hc, hr, hm2] at hmem
            | some rv =>
              refine ⟨[Call.malloc ctx.reg.value_size], ?_⟩
              simp [psabpf_register_get, allocate_key_buffer, allocate_value_buffer,
                World.invoke, World.call, World.calls_since, hk, hm, hc, hr, hm2] at hmem ⊢
              split_ifs at hmem ⊢ <;> simp_all
          | some rv =>
            refine ⟨[], ?_⟩
            simp [psabpf_register_get, allocate_key_buffer, allocate_value_buffer,
              World.invoke, World.call, World.calls_since, hk, hm, hc, hr] at hmem ⊢
            split_ifs at hmem ⊢ <;> simp_all
        · simp [psabpf_register_get, allocate_key_buffer, World.invoke, World.call,
            World.calls_since, hk, hm, hc] at hmem
    | some rk =>
      by_cases hc : (R.construct_struct_from_fields entry.entry_key ctx.key_fds rk
          ctx.reg.key_size).1 = NO_ERROR
      · refine ⟨rk, [], ?_⟩
        cases hr : entry.raw_value with
        | none =>
          cases hm2 : (R.malloc w.store ctx.reg.value_size).1 with
          | none =>
            simp [psabpf_register_get, allocate_key_buffer, allocate_value_buffer,
              World.invoke, World.call, World.calls_since, hk, hc, hr, hm2] at hmem
          | some rv =>
            refine ⟨[Call.malloc ctx.reg.value_size], ?_⟩
            simp [psabpf_register_get, allocate_key_buffer, allocate_value_buffer,
              World.invoke, World.call, World.calls_since, hk, hc, hr, hm2] at hmem ⊢
            split_ifs at hmem ⊢ <;> simp_all
        | some rv =>
          refine ⟨[], ?_⟩
          simp [psabpf_register_get, allocate_key_buffer, allocate_value_buffer,
            World.invoke, World.call, World.calls_since, hk, hc, hr] at hmem ⊢
          split_ifs at hmem ⊢ <;> simp_all
      · simp [psabpf_register_get, allocate_key_buffer, World.invoke, World.call,
          World.calls_since, hk, hc] at hmem
  · intro raw_key c ha hc hne
    subst hc
    cases hk : entry.raw_key with
    | none =>
      simp [allocate_key_buffer, World.invoke, hk] at ha hne
      simp [psabpf_register_get, allocate_key_buffer, World.invoke, World.call,
        World.calls_since, hk, ha, hne]
    | some rk =>
      simp [allocate_key_buffer, World.invoke, hk] at ha hne
      subst ha
      simp [psabpf_register_get, allocate_key_buffer, World.invoke, World.call,
        World.calls_since, hk, hne]
/-- C15 at a concrete input: an entry with no key blob makes the packing
fail with `EINVAL`; that is the result, and the run makes one allocation (the
key buffer) and the packing call, and no lookup. -/
theorem psabpf_register_get_single_lookup_witness :
    (psabpf_register_get (sampleReg true (some sampleKeyLayout) (some sampleValueLayout))
      sampleRegCtx psabpf_register_entry_init sampleRegOpenWorld).1 = EINVAL ∧
    sampleRegOpenWorld.calls_since
      (psabpf_register_get (sampleReg true (some sampleKeyLayout) (some sampleValueLayout))
        sampleRegCtx psabpf_register_entry_init sampleRegOpenWorld).2.2 =
      [Call.malloc 4, Call.construct_struct_from_fields 4] :=
  have h := (psabpf_register_get_single_lookup
    (sampleReg true (some sampleKeyLayout) (some sampleValueLayout))
    sampleRegCtx psabpf_register_entry_init sampleRegOpenWorld).2.2 _ _ rfl rfl (by decide)
  ⟨h.1, h.2.2.1⟩

/-- C16, what the code does.  When the pipeline id and every keyword parse
and arguments are left over, `do_clone_session_create`,
`do_clone_session_delete`, `do_clone_session_del_member` and
`do_clone_session_add_member` return `EINVAL` and call nothing but
`psabpf_context_init` and `psabpf_context_free`.  `do_clone_session_get`
makes no store operation beyond the existence check either, but its result
is not `EINVAL`: `ret` still holds the parser's `NO_ERROR` at the
unused-argument check, so the function returns `NO_ERROR` when the session
exists (and `ENOENT` when it does not).  At the failing input
`pipe 1 id 7 extra`, session 7 present, the result is `NO_ERROR`. -/
theorem do_clone_session_unused_argument {σ : Type} (C : CliLib σ) (L : PreLib σ)
    (print_clone_session : psabpf_context_t → Option psabpf_clone_session_ctx_t →
      World σ → Int × Option psabpf_clone_session_ctx_t × World σ) :
    (∀ (argv : List String) (session_id : Nat) (w : World σ)
        (p : Int × List String × psabpf_context_t)
        (k : Int × List String × List (Option Nat)),
      p = C.parse_pipeline_id w.store argv C.psabpf_context_init →
      k = C.parse_keyword_value_pairs p.2.1 session_kv →
      p.1 = NO_ERROR → k.1 = NO_ERROR → k.2.1 ≠ [] →
      ((do_clone_session_create C L argv session_id w).1 = EINVAL ∧
       (do_clone_session_create C L argv session_id w).2.store = w.store ∧
       w.calls_since (do_clone_session_create C L argv session_id w).2 =
         [.psabpf_context_init, .psabpf_context_free p.2.2]) ∧
      ((do_clone_session_delete C L argv session_id w).1 = EINVAL ∧
       (do_clone_session_delete C L argv session_id w).2.store = w.store ∧
       w.calls_since (do_clone_session_delete C L argv session_id w).2 =
         [.psabpf_context_init, .psabpf_context_free p.2.2])) ∧
    (∀ (argv : List String) (session_id egress_port instance_ : Nat) (w : World σ)
        (p : Int × List String × psabpf_context_t)
        (k : Int × List String × List (Option Nat)),
      p = C.parse_pipeline_id w.store argv C.psabpf_context_init →
      k = C.parse_keyword_value_pairs p.2.1 del_member_kv →
      p.1 = NO_ERROR → k.1 = NO_ERROR → k.2.1 ≠ [] →
      (do_clone_session_del_member C L argv session_id egress_port instance_ w).1 = EINVAL ∧
      (do_clone_session_del_member C L argv session_id egress_port instance_ w).2.store
        = w.store ∧
      w.calls_since (do_clone_session_del_member C L argv session_id egress_port instance_ w).2
        = [.psabpf_context_init, .psabpf_context_free p.2.2]) ∧
    (∀ (argv : List String) (session_id egress_port instance_ plen_bytes : Nat) (w : World σ)
        (p : Int × List String × psabpf_context_t)
        (k : Int × List String × List (Option Nat))
        (truncate : Bool) (rest : List String) (plen : Nat),
      p = C.parse_pipeline_id w.store argv C.psabpf_context_init →
      k = C.parse_keyword_value_pairs p.2.1 add_member_kv →
      p.1 = NO_ERROR → k.1 = NO_ERROR →
      add_member_truncate_block C k.2.1 (store_sized 2 plen_bytes) =
        some (truncate, rest, plen, NO_ERROR) →
      rest ≠ [] →
      do_clone_session_add_member C L argv session_id egress_port instance_ plen_bytes w
        = some (EINVAL,
            { store := w.store,
              log := w.log ++ [.psabpf_context_init, .psabpf_context_free p.2.2] })) ∧
    (∀ (argv : List String) (session_id : Nat) (w : World σ)
        (p : Int × List String × psabpf_context_t)
        (k : Int × List String × List (Option Nat))
        (session : psabpf_clone_session_ctx_t),
      p = C.parse_pipeline_id w.store argv C.psabpf_context_init →
      k = C.parse_keyword_value_pairs p.2.1 get_kv →
      session = psabpf_clone_session_id L.psabpf_clone_session_context_init
        (kv_dest k.2.2 0 4 (store_sized 4 session_id)) →
      p.1 = NO_ERROR → p.2.1 ≠ [] → k.1 = NO_ERROR → k.2.1 ≠ [] →
      (do_clone_session_get C L print_clone_session argv session_id w).1 =
        (if L.psabpf_clone_session_exists w.store p.2.2 session then NO_ERROR else ENOENT) ∧
      (do_clone_session_get C L print_clone_session argv session_id w).2.store = w.store ∧
      w.calls_since (do_clone_session_get C L print_clone_session argv session_id w).2 =
        [.psabpf_context_init, .psabpf_clone_session_context_init,
         .psabpf_clone_session_id (kv_dest k.2.2 0 4 (store_sized 4 session_id)),
         .psabpf_clone_session_exists p.2.2 session,
         .psabpf_clone_session_context_free session,
         .psabpf_context_free p.2.2]) ∧
    ((do_clone_session_get sampleCli sampleLib samplePrint ["pipe", "1", "id", "7", "extra"] 0
        sampleWorld).1 = NO_ERROR ∧
     (do_clone_session_create sampleCli sampleLib ["pipe", "1", "id", "8", "extra"] 0
        sampleWorld).1 = EINVAL) := by
  refine ⟨?_, ?_, ?_, ?_, ?_⟩
  · intro argv session_id w p k hp hk hp1 hk1 hne
    subst hp hk
    have hlen : 0 < (C.parse_keyword_value_pairs
        (C.parse_pipeline_id w.store argv C.psabpf_context_init).2.1 session_kv).2.1.length :=
      List.length_pos.mpr hne
    have hstore : (w.call Call.psabpf_context_init).store = w.store := rfl
    simp [do_clone_session_create, do_clone_session_delete, hstore, hp1, hk1, hlen,
      World.call, World.calls_since]
  · intro argv session_id egress_port instance_ w p k hp hk hp1 hk1 hne
    subst hp hk
    have hlen : 0 < (C.parse_keyword_value_pairs
        (C.parse_pipeline_id w.store argv C.psabpf_context_init).2.1 del_member_kv).2.1.length :=
      List.length_pos.mpr hne
    have hstore : (w.call Call.psabpf_context_init).store = w.store := rfl
    simp [do_clone_session_del_member, hstore, hp1, hk1, hlen, World.call, World.calls_since]
  · intro argv session_id egress_port instance_ plen_bytes w p k truncate rest plen hp hk
      hp1 hk1 hb hne
    subst hp hk
    have hlen : 0 < rest.length := List.length_pos.mpr hne
    have hstore : (w.call Call.psabpf_context_init).store = w.store := rfl
    simp [do_clone_session_add_member, hstore, hp1, hk1, hb, hlen, World.call]
  · intro argv session_id w p k session hp hk hs hp1 hpne hk1 hne
    subst hp hk hs
    have hlen : 0 < (C.parse_keyword_value_pairs
        (C.parse_pipeline_id w.store argv C.psabpf_context_init).2.1 get_kv).2.1.length :=
      List.length_pos.mpr hne
    have hplen : 0 < (C.parse_pipeline_id w.store argv C.psabpf_context_init).2.1.length :=
      List.length_pos.mpr hpne
    cases hex : L.psabpf_clone_session_exists w.store
        (C.parse_pipeline_id w.store argv C.psabpf_context_init).2.2
        (psabpf_clone_session_id L.psabpf_clone_session_context_init
          (kv_dest (C.parse_keyword_value_pairs
            (C.parse_pipeline_id w.store argv C.psabpf_context_init).2.1 get_kv).2.2 0 4
            (store_sized 4 session_id))) <;>
      simp [do_clone_session_get, do_clone_session_get_finish, do_clone_session_get_clean_up,
        hp1, hk1, hlen, hplen, hex, World.call, World.calls_since]
  · exact ⟨by decide, by decide⟩


/-- C17, what the code does.  On every path of `clone_session_add_member` and
`clone_session_del_member` the session context is released exactly once, and
when the session exists `psabpf_clone_session_entry_free` is applied to the
entry that `psabpf_clone_session_entry_init` initialised.  When the session
does not exist, the `goto err` of lines 93 and 132 reaches
`psabpf_clone_session_entry_free(&entry)` although
`psabpf_clone_session_entry_init` was never called: the entry freed is the
uninitialised local.  At the failing input, the absent session 8 of the
sample store, both functions free the uninitialised entry. -/
theorem clone_session_member_entry_free {σ : Type} (L : PreLib σ) (ctx : psabpf_context_t)
    (id : psabpf_clone_session_id_t) (egress_port instance_ class_of_service : Nat)
    (truncate : Bool) (len : Nat) (w : World σ) :
    ((w.calls_since (clone_session_add_member L ctx id egress_port instance_
        class_of_service truncate len w).2).filter
      Call.is_clone_session_context_free).length = 1 ∧
    ((w.calls_since (clone_session_del_member L ctx id egress_port instance_ w).2).filter
      Call.is_clone_session_context_free).length = 1 ∧
    (L.psabpf_clone_session_exists w.store ctx (session_for L id) = true →
      (Call.psabpf_clone_session_entry_init ∈
          w.calls_since (clone_session_add_member L ctx id egress_port instance_
            class_of_service truncate len w).2 ∧
        Call.psabpf_clone_session_entry_free none ∉
          w.calls_since (clone_session_add_member L ctx id egress_port instance_
            class_of_service truncate len w).2) ∧
      (Call.psabpf_clone_session_entry_init ∈
          w.calls_since (clone_session_del_member L ctx id egress_port instance_ w).2 ∧
        Call.psabpf_clone_session_entry_free none ∉
          w.calls_since (clone_session_del_member L ctx id egress_port instance_ w).2)) ∧
    (L.psabpf_clone_session_exists w.store ctx (session_for L id) = false →
      (Call.psabpf_clone_session_entry_init ∉
          w.calls_since (clone_session_add_member L ctx id egress_port instance_
            class_of_service truncate len w).2 ∧
        Call.psabpf_clone_session_entry_free none ∈
          w.calls_since (clone_session_add_member L ctx id egress_port instance_
            class_of_service truncate len w).2) ∧
      (Call.psabpf_clone_session_entry_init ∉
          w.calls_since (clone_session_del_member L ctx id egress_port instance_ w).2 ∧
        Call.psabpf_clone_session_entry_free none ∈
          w.calls_since (clone_session_del_member L ctx id egress_port instance_ w).2)) ∧
    (sampleWorld.calls_since (clone_session_add_member sampleLib ⟨1⟩ 8 5 0 0 false 0
        sampleWorld).2 =
      [.psabpf_clone_session_context_init, .psabpf_clone_session_id 8,
       .psabpf_clone_session_exists ⟨1⟩ (session_for sampleLib 8),
       .psabpf_clone_session_context_free (session_for sampleLib 8),
       .psabpf_clone_session_entry_free none] ∧
     sampleWorld.calls_since (clone_session_del_member sampleLib ⟨1⟩ 8 5 0 sampleWorld).2 =
      [.psabpf_clone_session_context_init, .psabpf_clone_session_id 8,
       .psabpf_clone_session_exists ⟨1⟩ (session_for sampleLib 8),
       .psabpf_clone_session_context_free (session_for sampleLib 8),
       .psabpf_clone_session_entry_free none]) := by
  refine ⟨?_, ?_, ?_, ?_, by decide, by decide⟩
  · cases hex : L.psabpf_clone_session_exists w.store ctx
        (psabpf_clone_session_id L.psabpf_clone_session_context_init id) <;>
      cases truncate <;>
      simp [clone_session_add_member, World.call, World.invoke, World.calls_since, hex,
        Call.is_clone_session_context_free, List.filter]
  · cases hex : L.psabpf_clone_session_exists w.store ctx
        (psabpf_clone_session_id L.psabpf_clone_session_context_init id) <;>
      simp [clone_session_del_member, World.call, World.invoke, World.calls_since, hex,
        Call.is_clone_session_context_free, List.filter]
  · intro hex
    have hex2 : L.psabpf_clone_session_exists w.store ctx
        (psabpf_clone_session_id L.psabpf_clone_session_context_init id) = true := hex
    cases truncate <;>
      simp [clone_session_add_member, clone_session_del_member, World.call, World.invoke,
        World.calls_since, hex2]
  · intro hex
    have hex2 : L.psabpf_clone_session_exists w.store ctx
        (psabpf_clone_session_id L.psabpf_clone_session_context_init id) = false := hex
    simp [clone_session_add_member, clone_session_del_member, World.call, World.invoke,
      World.calls_since, hex2]


/-- C18: when the pipeline id parses, `do_pipeline_load` returns `EINVAL`
without any library call and with the world untouched unless exactly one
argument follows the id; with exactly one, it returns `EEXIST` without
calling `psabpf_pipeline_load` (the store stays as it was) when
`psabpf_pipeline_exists` reports the id loaded, and otherwise calls
`psabpf_pipeline_load` once, on that argument, and returns exactly its
result, which is `NO_ERROR` on success. -/
theorem do_pipeline_load_contract {σ : Type} (A : ArgpLib) (P : PipelineLib σ)
    (argv : List String) (w : World σ) (rest : List String) (id : Nat)
    (hparse : parse_pipeline_id_without_pipe_keyword A argv 0 = some (NO_ERROR, rest, id)) :
    (rest.length ≠ 1 → do_pipeline_load A P argv w = some (EINVAL, w)) ∧
    (∀ file : String, rest = [file] →
      (P.psabpf_pipeline_exists w.store
          (psabpf_context_set_pipeline P.psabpf_context_init id) = true →
        do_pipeline_load A P argv w =
          some (EEXIST,
            { store := w.store,
              log := w.log ++
                [.psabpf_context_init, .psabpf_context_set_pipeline id,
                 .psabpf_pipeline_exists
                   (psabpf_context_set_pipeline P.psabpf_context_init id),
                 .psabpf_context_free
                   (psabpf_context_set_pipeline P.psabpf_context_init id)] })) ∧
      (P.psabpf_pipeline_exists w.store
          (psabpf_context_set_pipeline P.psabpf_context_init id) = false →
        do_pipeline_load A P argv w =
          some ((P.psabpf_pipeline_load w.store
                  (psabpf_context_set_pipeline P.psabpf_context_init id) (some file)).1,
            { store := (P.psabpf_pipeline_load w.store
                  (psabpf_context_set_pipeline P.psabpf_context_init id) (some file)).2,
              log := w.log ++
                [.psabpf_context_init, .psabpf_context_set_pipeline id,
                 .psabpf_pipeline_exists
                   (psabpf_context_set_pipeline P.psabpf_context_init id),
                 .psabpf_pipeline_load
                   (psabpf_context_set_pipeline P.psabpf_context_init id) (some file),
                 .psabpf_context_free
                   (psabpf_context_set_pipeline P.psabpf_context_init id)] }))) := by
  refine ⟨?_, ?_⟩
  · intro hlen
    simp only [do_pipeline_load, hparse]
    by_cases h0 : rest.length < 1
    · simp [h0]
    · have h1 : rest.length > 1 := by omega
      simp [h0, h1]
  · intro file hrest
    subst hrest
    refine ⟨?_, ?_⟩
    · intro hex
      simp [do_pipeline_load, hparse, World.call, hex]
    · intro hex
      by_cases hr : (P.psabpf_pipeline_load w.store
          (psabpf_context_set_pipeline P.psabpf_context_init id) (some file)).1 = 0
      · simp [do_pipeline_load, hparse, World.call, World.invoke, hex, hr, NO_ERROR]
      · simp [do_pipeline_load, hparse, World.call, World.invoke, hex, hr]

/-- C18 at concrete inputs: with pipeline 1 loaded, `id 1 prog.o` gives
`EEXIST` and leaves the store; `id 2 prog.o` loads pipeline 2 and gives
`NO_ERROR`; `id 2 a b` gives `EINVAL` and leaves the world untouched. -/
theorem do_pipeline_load_contract_witness :
    (do_pipeline_load sampleArgp samplePipeline ["id", "1", "prog.o"] samplePipelineWorld).map
        (fun r => (r.1, r.2.store)) = some (EEXIST, [1]) ∧
    (do_pipeline_load sampleArgp samplePipeline ["id", "2", "prog.o"] samplePipelineWorld).map
        (fun r => (r.1, r.2.store)) = some (NO_ERROR, [2, 1]) ∧
    do_pipeline_load sampleArgp samplePipeline ["id", "2", "a", "b"] samplePipelineWorld
      = some (EINVAL, samplePipelineWorld) := by
  have h1 := ((do_pipeline_load_contract sampleArgp samplePipeline ["id", "1", "prog.o"]
    samplePipelineWorld ["prog.o"] 1 (by decide)).2 "prog.o" rfl).1 (by decide)
  have h2 := ((do_pipeline_load_contract sampleArgp samplePipeline ["id", "2", "prog.o"]
    samplePipelineWorld ["prog.o"] 2 (by decide)).2 "prog.o" rfl).2 (by decide)
  have h3 := (do_pipeline_load_contract sampleArgp samplePipeline ["id", "2", "a", "b"]
    samplePipelineWorld ["a", "b"] 2 (by decide)).1 (by decide)
  refine ⟨?_, ?_, h3⟩
  · rw [h1]; rfl
  · rw [h2]; rfl


end Psabpf
